import Mathlib

/-!
Verification of the Schwarzschild black-hole renderer (fragment shader
`blackhole.frag.glsl` plus the observer / renderer logic of
`BlackholeBackground.tsx`).  GLSL / JS floating-point numbers are modelled
by real numbers; `vec3` by a record of three reals.
-/

noncomputable section

namespace Blackhole

/-- A 3-component vector (GLSL `vec3`, THREE.Vector3). -/
structure Vec3 where
  x : ℝ
  y : ℝ
  z : ℝ

namespace Vec3

instance : Add Vec3 := ⟨fun a b => ⟨a.x + b.x, a.y + b.y, a.z + b.z⟩⟩

instance : Neg Vec3 := ⟨fun a => ⟨-a.x, -a.y, -a.z⟩⟩

instance : SMul ℝ Vec3 := ⟨fun c a => ⟨c * a.x, c * a.y, c * a.z⟩⟩

instance : Zero Vec3 := ⟨⟨0, 0, 0⟩⟩

theorem add_def (a b : Vec3) : a + b = ⟨a.x + b.x, a.y + b.y, a.z + b.z⟩ := rfl

theorem smul_def (c : ℝ) (a : Vec3) : c • a = ⟨c * a.x, c * a.y, c * a.z⟩ := rfl

theorem zero_def : (0 : Vec3) = ⟨0, 0, 0⟩ := rfl

/-- GLSL `dot`. -/
def dot (a b : Vec3) : ℝ := a.x * b.x + a.y * b.y + a.z * b.z

/-- GLSL `cross`. -/
def cross (a b : Vec3) : Vec3 :=
  ⟨a.y * b.z - a.z * b.y, a.z * b.x - a.x * b.z, a.x * b.y - a.y * b.x⟩

/-- GLSL `length`. -/
def length (a : Vec3) : ℝ := Real.sqrt (dot a a)

theorem dot_self_nonneg (a : Vec3) : 0 ≤ dot a a := by
  simp only [dot]; nlinarith [sq_nonneg a.x, sq_nonneg a.y, sq_nonneg a.z]

theorem length_nonneg (a : Vec3) : 0 ≤ a.length := Real.sqrt_nonneg _

theorem length_sq (a : Vec3) : a.length ^ 2 = dot a a := by
  simpa [length] using Real.sq_sqrt (dot_self_nonneg a)

theorem length_smul (c : ℝ) (a : Vec3) : (c • a).length = |c| * a.length := by
  simp only [length, smul_def, dot]
  rw [show c * a.x * (c * a.x) + c * a.y * (c * a.y) + c * a.z * (c * a.z)
        = c ^ 2 * (a.x * a.x + a.y * a.y + a.z * a.z) by ring,
      Real.sqrt_mul (by positivity), Real.sqrt_sq_eq_abs]

theorem smul_zero' (a : Vec3) : (0 : ℝ) • a = 0 := by
  simp [smul_def, zero_def]

theorem smul_zero_vec (c : ℝ) : c • (0 : Vec3) = 0 := by
  simp [smul_def, zero_def]

theorem add_zero' (a : Vec3) : a + 0 = a := by
  cases a
  simp [add_def, zero_def]

theorem add_smul_add (p v : Vec3) (a b : ℝ) :
    (p + a • v) + b • v = p + (a + b) • v := by
  cases p
  cases v
  simp only [add_def, smul_def, mk.injEq]
  refine ⟨by ring, by ring, by ring⟩

end Vec3

/-! ### Quality presets (`QUALITY_PRESETS`, BlackholeBackground.tsx lines 233-238) -/

/-- The four render quality presets. -/
inductive Quality where
  | low
  | medium
  | high
  | ultra
deriving DecidableEq

/-- Integration step count of a preset (`integrationSteps`). -/
def integrationSteps : Quality → ℕ
  | .low => 300
  | .medium => 600
  | .high => 1000
  | .ultra => 1500

/-- Integration step size of a preset (`stepSize`); becomes the shader's
`STEP` constant via `createShaderMesh`. -/
def stepSize : Quality → ℝ
  | .low => 0.1
  | .medium => 0.05
  | .high => 0.02
  | .ultra => 0.015

/-! ### Geodesic integrator (blackhole.frag.glsl, `main`, lines 118-190) -/

/-- Mutable integration state of a ray: `point` and `velocity`. -/
structure RayState where
  point : Vec3
  velocity : Vec3

/-- The conserved constant `h2 = dot(c, c)` with `c = cross(point, velocity)`,
computed once at ray start (lines 120-121). -/
def initialH2 (st : RayState) : ℝ :=
  Vec3.dot (Vec3.cross st.point st.velocity) (Vec3.cross st.point st.velocity)

/-- The acceleration of line 136:
`accel = -1.5 * h2 * point / pow(dot(point, point), 2.5)`. -/
def accelOf (h2 : ℝ) (p : Vec3) : Vec3 :=
  (-1.5 * h2 / (Vec3.dot p p) ^ (2.5 : ℝ)) • p

/-- One step of the integration loop body, lines 134-137:
`point += velocity * STEP`, then `accel` at the updated point, then
`velocity += accel * STEP`. -/
def integrationStep (h2 s : ℝ) (st : RayState) : RayState :=
  let p := st.point + s • st.velocity
  let accel := accelOf h2 p
  ⟨p, st.velocity + s • accel⟩

/-- The state after `n` integration steps. -/
def trajectory (h2 s : ℝ) (st : RayState) : ℕ → RayState
  | 0 => st
  | n + 1 => integrationStep h2 s (trajectory h2 s st n)

/-- The horizon capture condition of line 142:
`distance < 1.0 && length(oldpoint) > 1.0` (note the strict `>`),
where the first argument is the updated point and the second the saved one. -/
def horizonMask (p oldp : Vec3) : Prop :=
  p.length < 1 ∧ oldp.length > 1

instance (p oldp : Vec3) : Decidable (horizonMask p oldp) :=
  inferInstanceAs (Decidable (_ ∧ _))

/-- Two-argument arctangent in the GLSL / JS convention:
`atan2 y x` is the angle of the point `(x, y)`, i.e. the complex argument of
`x + y*I`.  GLSL `atan(a, b)` and JS `Math.atan2(a, b)` are `atan2 a b`. -/
def atan2 (y x : ℝ) : ℝ := Complex.arg ⟨x, y⟩

/-- A disk-plane crossing event (lines 152-157): radius `r` of the crossing
point, azimuth `phi = atan(intersection.x, intersection.z)` and the local
disk fluid velocity
`vec3(-intersection.x, 0, intersection.z) / sqrt(2*(r-1)) / (r*r)`. -/
structure DiskEvent where
  r : ℝ
  phi : ℝ
  diskVelocity : Vec3

/-- The disk-plane check of lines 149-161, given the saved `oldpoint`, the
updated `point` and the updated `velocity`.  The branch is entered exactly
when `oldpoint.y * point.y < 0.0`; inside it
`lambda = -oldpoint.y / velocity.y`, `intersection = oldpoint + lambda *
velocity`, `r = length(intersection)`, and an event is produced exactly when
`DISK_IN <= r && r <= DISK_IN + DISK_WIDTH`, i.e. `2 ≤ r ≤ 6`.

The `velocity.y = 0` arm models the GLSL float semantics of the unguarded
division at line 150: the branch condition forces `oldpoint.y ≠ 0`, so
`lambda` is `±infinity`, every component of `intersection` is `±infinity` or
`NaN`, `r` is `+infinity` or `NaN`, and the comparison
`2.0 <= r && r <= 6.0` is false either way — no event is produced. -/
def diskCrossing (oldp p vel : Vec3) : Option DiskEvent :=
  if oldp.y * p.y < 0 then
    if vel.y = 0 then none
    else
      let lam := -oldp.y / vel.y
      let inter := oldp + lam • vel
      let r := inter.length
      if 2 ≤ r ∧ r ≤ 6 then
        some ⟨r, atan2 inter.x inter.z,
              (1 / (Real.sqrt (2 * (r - 1)) * (r * r))) • ⟨-inter.x, 0, inter.z⟩⟩
      else none
  else none

/-- The color contribution added on horizon capture (line 144):
`vec4(0.0, 0.0, 0.0, 1.0)`, pure black with full opacity. -/
def captureContribution : ℝ × ℝ × ℝ × ℝ := (0, 0, 0, 1)

/-- Result of running the integration loop of lines 133-190. -/
inductive Outcome where
  /-- The loop stopped at the `k`-th executed step (1-based) because the
  horizon mask held; `contribution` is the color added at line 144. -/
  | captured (k : ℕ) (contribution : ℝ × ℝ × ℝ × ℝ) (events : List DiskEvent)
  /-- The loop stopped at the `k`-th executed step because
  `distance < 0.0` held (line 140; in fact unreachable). -/
  | negBroke (k : ℕ) (events : List DiskEvent)
  /-- The loop ran to its natural end. -/
  | finished (finalState : RayState) (events : List DiskEvent)

/-- Prepend the current step's optional disk event to a later outcome and
shift its break index by the one step just executed. -/
def withEvent (ev : Option DiskEvent) : Outcome → Outcome
  | .captured k c evs => .captured (k + 1) c (ev.toList ++ evs)
  | .negBroke k evs => .negBroke (k + 1) (ev.toList ++ evs)
  | .finished fin evs => .finished fin (ev.toList ++ evs)

/-- The integration loop of lines 133-190, with `n` steps of size `s`,
accumulating the disk-crossing events encountered (when `showDisk` is set,
uniform `uShowAccretionDisk`).  Per step: save the old point, advance the
state, break on `distance < 0.0`, break with a black contribution on the
horizon mask, otherwise run the disk-plane check and continue. -/
def integrate (h2 s : ℝ) (showDisk : Bool) : ℕ → RayState → Outcome
  | 0, st => .finished st []
  | n + 1, st =>
    if (integrationStep h2 s st).point.length < 0 then .negBroke 1 []
    else if horizonMask (integrationStep h2 s st).point st.point then
      .captured 1 captureContribution []
    else
      withEvent
        (if showDisk then
          diskCrossing st.point (integrationStep h2 s st).point
            (integrationStep h2 s st).velocity
         else none)
        (integrate h2 s showDisk n (integrationStep h2 s st))

/-- The full per-ray integration as `main` performs it: `h2` is computed
from the initial state (lines 120-121) and the loop is run. -/
def integrateRay (s : ℝ) (showDisk : Bool) (n : ℕ) (st : RayState) : Outcome :=
  integrate (initialH2 st) s showDisk n st

/-- Step index and capture contribution of a captured outcome. -/
def capturedInfo : Outcome → Option (ℕ × (ℝ × ℝ × ℝ × ℝ))
  | .captured k c _ => some (k, c)
  | _ => none

/-- The ray was declared captured. -/
def isCaptured (o : Outcome) : Prop :=
  ∃ k c evs, o = .captured k c evs

/-! ### Blackbody conversion (`tempToColor`, blackhole.frag.glsl lines 63-98) -/

/-- `tempToColor`: piecewise Planckian-locus approximation.  The input is
clamped to `[1000, 40000]` kelvin and divided by 100; each channel is
computed by the branch structure of lines 67-94 (GLSL `log` is the natural
logarithm, `pow` is real exponentiation) and the result is divided by 255. -/
def tempToColor (tempKelvin : ℝ) : Vec3 :=
  let t := min (max tempKelvin 1000) 40000 / 100
  let red : ℝ :=
    if t ≤ 66 then 255
    else
      let r1 := max (t - 60) 0
      let r2 := 329.698727446 * r1 ^ (-0.1332047592 : ℝ)
      min (max r2 0) 255
  let green : ℝ :=
    if t ≤ 66 then
      min (max (99.4708025861 * Real.log t - 161.1195681661) 0) 255
    else
      let g1 := max (t - 60) 0
      min (288.1221695283 * g1 ^ (-0.0755148492 : ℝ)) 255
  let blue : ℝ :=
    if 66 ≤ t then 255
    else if t ≤ 19 then 0
    else min (max (138.5177312231 * Real.log (t - 10) - 305.0447927307) 0) 255
  ⟨red / 255, green / 255, blue / 255⟩

/-! ### Observer / camera model (`BlackholeObserver`, BlackholeBackground.tsx
lines 461-620) -/

/-- The fixed orbital inclination `_incline = -5 * Math.PI / 180` (line 473). -/
def incline : ℝ := -5 * Real.pi / 180

/-- `maxAngularVelocity` as recomputed at lines 482 and 496:
`1 / Math.sqrt(2.0 * (r - 1.0)) / r`. -/
def maxAngVel (r : ℝ) : ℝ := 1 / Real.sqrt (2 * (r - 1)) / r

/-- World up vector `(0, 1, 0)`. -/
def worldUp : Vec3 := ⟨0, 1, 0⟩

/-- `THREE.Vector3.normalize`: divide by the length. -/
def Vec3.normalize (v : Vec3) : Vec3 := (1 / v.length) • v

/-- `THREE.Matrix4.makeRotationX a` applied to a vector. -/
def rotX (a : ℝ) (v : Vec3) : Vec3 :=
  ⟨v.x, Real.cos a * v.y - Real.sin a * v.z, Real.sin a * v.y + Real.cos a * v.z⟩

/-- Truncation toward zero, used by the JS `%` operator. -/
def rtrunc (x : ℝ) : ℤ := if 0 ≤ x then ⌊x⌋ else ⌈x⌉

/-- The JS remainder operator `a % b`. -/
def jsMod (a b : ℝ) : ℝ := a - b * rtrunc (a / b)

/-- State of `BlackholeObserver` (lines 461-478). -/
structure Observer where
  r : ℝ
  theta : ℝ
  angularVelocity : ℝ
  maxAngularVelocity : ℝ
  moving : Bool
  manualControl : Bool
  manualPitch : ℝ
  manualYaw : ℝ
  position : Vec3
  velocity : Vec3
  direction : Vec3
  up : Vec3
  time : ℝ

namespace Observer

/-- The constructor (lines 480-488): note that the initial distance is
stored in `_r` without any clamping. -/
def make (distance : ℝ) : Observer :=
  { r := distance
    theta := 0
    angularVelocity := 0
    maxAngularVelocity := maxAngVel distance
    moving := false
    manualControl := false
    manualPitch := 0
    manualYaw := 0
    position := ⟨0, 0, distance⟩
    velocity := 0
    direction := ⟨0, 0, -1⟩
    up := ⟨0, 1, 0⟩
    time := 0 }

/-- `updatePosition` (lines 548-584).  Manual branch: spherical coordinates
from pitch/yaw at radius `r`, zero velocity.  Orbit branch: circle of radius
`r` in the XZ-plane rotated by the fixed inclination.  Both derive
`direction` and `up` the same way. -/
def updatePosition (o : Observer) : Observer :=
  if o.manualControl then
    let pos : Vec3 := ⟨o.r * Real.cos o.manualPitch * Real.sin o.manualYaw,
                       o.r * Real.sin o.manualPitch,
                       o.r * Real.cos o.manualPitch * Real.cos o.manualYaw⟩
    let dir := Vec3.normalize (-pos)
    let right := Vec3.normalize (Vec3.cross dir worldUp)
    { o with position := pos, velocity := 0, direction := dir,
             up := Vec3.normalize (Vec3.cross right dir) }
  else
    let pos := rotX incline ⟨o.r * Real.sin o.theta, 0, o.r * Real.cos o.theta⟩
    let vel := rotX incline ⟨Real.cos o.theta * o.angularVelocity, 0,
                             -(Real.sin o.theta) * o.angularVelocity⟩
    let dir := Vec3.normalize (-pos)
    let right := Vec3.normalize (Vec3.cross dir worldUp)
    { o with position := pos, velocity := vel, direction := dir,
             up := Vec3.normalize (Vec3.cross right dir) }

/-- The `distance` setter (lines 494-498): clamp to `≥ 2.0`, recompute
`maxAngularVelocity`, re-derive the position. -/
def setDistance (value : ℝ) (o : Observer) : Observer :=
  updatePosition
    { o with r := max value 2, maxAngularVelocity := maxAngVel (max value 2) }

/-- The `orbitSpeed` setter (lines 504-506):
`min(Math.abs(value), maxAngularVelocity)`. -/
def setOrbitSpeed (value : ℝ) (o : Observer) : Observer :=
  { o with angularVelocity := min |value| o.maxAngularVelocity }

/-- The `moving` setter (lines 508-510). -/
def setMoving (value : Bool) (o : Observer) : Observer :=
  { o with moving := value }

/-- The `manualControl` setter (lines 516-524): switching into manual mode
snapshots the current (normalized) position as initial yaw/pitch via
`Math.atan2(pos.x, pos.z)` and `Math.asin(pos.y)`. -/
def setManualControl (value : Bool) (o : Observer) : Observer :=
  if value then
    let cp := Vec3.normalize o.position
    { o with manualControl := true
             manualYaw := atan2 cp.x cp.z
             manualPitch := Real.arcsin cp.y }
  else
    { o with manualControl := false }

/-- `setManualAngles` (lines 531-537): pitch clamped to
`[-PI/2 + 0.1, PI/2 - 0.1]`, position re-derived only in manual mode. -/
def setManualAngles (pitch yaw : ℝ) (o : Observer) : Observer :=
  let o' := { o with
    manualPitch := max (-(Real.pi / 2) + 0.1) (min (Real.pi / 2 - 0.1) pitch)
    manualYaw := yaw }
  if o.manualControl then updatePosition o' else o'

/-- `update` (lines 596-619): in orbit mode advance `theta`, ramp the
angular velocity toward `maxAngularVelocity` (moving) or `0` (not moving) at
rate `delta / r`; then re-derive the position and advance the clock. -/
def update (delta : ℝ) (o : Observer) : Observer :=
  let o1 :=
    if o.manualControl then o
    else
      let ot := { o with
        theta := jsMod (o.theta + o.angularVelocity * delta) (Real.pi * 2) }
      if ot.moving then
        if ot.angularVelocity < ot.maxAngularVelocity then
          { ot with angularVelocity := ot.angularVelocity + delta / ot.r }
        else
          { ot with angularVelocity := ot.maxAngularVelocity }
      else
        if 0 < ot.angularVelocity then
          { ot with angularVelocity := ot.angularVelocity - delta / ot.r }
        else
          { ot with angularVelocity := 0, velocity := 0 }
  let o2 := updatePosition o1
  { o2 with time := o2.time + delta }

end Observer

/-! ### Renderer configuration surface (`BlackholeRenderer`,
BlackholeBackground.tsx lines 624-1077) -/

/-- The fully-defaulted configuration record (`BlackholeConfig` after the
merge of lines 640-666; the canvas and callback are external resources and
are not modelled). -/
structure Config where
  quality : Quality
  cameraDistance : ℝ
  fieldOfView : ℝ
  enableOrbit : Bool
  orbitSpeed : ℝ
  enableControls : Bool
  mouseSensitivity : ℝ
  touchSensitivity : ℝ
  enableZoom : Bool
  minDistance : ℝ
  maxDistance : ℝ
  showAccretionDisk : Bool
  useDiskTexture : Bool
  enableLorentzTransform : Bool
  enableDopplerShift : Bool
  enableBeaming : Bool
  bloomStrength : ℝ
  bloomRadius : ℝ
  bloomThreshold : ℝ
  backgroundTextureUrl : String
  starTextureUrl : String
  diskTextureUrl : String
  resolutionScale : ℝ

/-- A partial update record (`Partial<BlackholeConfig>`): every
configuration field optionally present. -/
structure ConfigUpdate where
  quality : Option Quality := none
  cameraDistance : Option ℝ := none
  fieldOfView : Option ℝ := none
  enableOrbit : Option Bool := none
  orbitSpeed : Option ℝ := none
  enableControls : Option Bool := none
  mouseSensitivity : Option ℝ := none
  touchSensitivity : Option ℝ := none
  enableZoom : Option Bool := none
  minDistance : Option ℝ := none
  maxDistance : Option ℝ := none
  showAccretionDisk : Option Bool := none
  useDiskTexture : Option Bool := none
  enableLorentzTransform : Option Bool := none
  enableDopplerShift : Option Bool := none
  enableBeaming : Option Bool := none
  bloomStrength : Option ℝ := none
  bloomRadius : Option ℝ := none
  bloomThreshold : Option ℝ := none
  backgroundTextureUrl : Option String := none
  starTextureUrl : Option String := none
  diskTextureUrl : Option String := none
  resolutionScale : Option ℝ := none

/-- The pieces of `CameraControls` state that the configuration surface
drives (lines 242-312). -/
structure ControlsState where
  enabled : Bool
  mouseSensitivity : ℝ
  touchSensitivity : ℝ
  enableZoom : Bool
  minDistance : ℝ
  maxDistance : ℝ

/-- The shader uniforms that `setConfig` writes (lines 1052-1076). -/
structure UniformsState where
  uFieldOfView : ℝ
  uShowAccretionDisk : Bool
  uEnableLorentzTransform : Bool
  uEnableDopplerShift : Bool
  uEnableRelBeaming : Bool

/-- The renderer-owned mutable state that `setConfig` can reach. -/
structure RendererState where
  config : Config
  observer : Observer
  controls : ControlsState
  uniforms : UniformsState

/-- `setConfig` stage for `updates.cameraDistance` (lines 1009-1012); the
observer's `distance` setter clamps to `≥ 2.0`. -/
def applyCameraDistance (u : ConfigUpdate) (s : RendererState) : RendererState :=
  match u.cameraDistance with
  | some v => { s with observer := Observer.setDistance v s.observer,
                       config := { s.config with cameraDistance := v } }
  | none => s

/-- `setConfig` stage for `updates.orbitSpeed` (lines 1014-1017). -/
def applyOrbitSpeed (u : ConfigUpdate) (s : RendererState) : RendererState :=
  match u.orbitSpeed with
  | some v => { s with observer := Observer.setOrbitSpeed v s.observer,
                       config := { s.config with orbitSpeed := v } }
  | none => s

/-- `setConfig` stage for `updates.enableOrbit` (lines 1019-1022). -/
def applyEnableOrbit (u : ConfigUpdate) (s : RendererState) : RendererState :=
  match u.enableOrbit with
  | some v => { s with config := { s.config with enableOrbit := v },
                       observer :=
                         Observer.setMoving (v && !s.observer.manualControl)
                           s.observer }
  | none => s

/-- `setConfig` stage for `updates.enableControls` (lines 1024-1027);
`CameraControls.setEnabled` also drives `observer.manualControl`
(line 286). -/
def applyEnableControls (u : ConfigUpdate) (s : RendererState) : RendererState :=
  match u.enableControls with
  | some v => { s with config := { s.config with enableControls := v },
                       controls := { s.controls with enabled := v },
                       observer := Observer.setManualControl v s.observer }
  | none => s

/-- `setConfig` stage for `updates.mouseSensitivity` (lines 1029-1032). -/
def applyMouseSensitivity (u : ConfigUpdate) (s : RendererState) : RendererState :=
  match u.mouseSensitivity with
  | some v => { s with config := { s.config with mouseSensitivity := v },
                       controls := { s.controls with mouseSensitivity := v } }
  | none => s

/-- `setConfig` stage for `updates.touchSensitivity` (lines 1034-1037). -/
def applyTouchSensitivity (u : ConfigUpdate) (s : RendererState) : RendererState :=
  match u.touchSensitivity with
  | some v => { s with config := { s.config with touchSensitivity := v },
                       controls := { s.controls with touchSensitivity := v } }
  | none => s

/-- `setConfig` stage for `updates.enableZoom` (lines 1039-1042). -/
def applyEnableZoom (u : ConfigUpdate) (s : RendererState) : RendererState :=
  match u.enableZoom with
  | some v => { s with config := { s.config with enableZoom := v },
                       controls := { s.controls with enableZoom := v } }
  | none => s

/-- `setConfig` stage for `updates.minDistance` / `updates.maxDistance`
(lines 1044-1050); `CameraControls.setDistanceRange` clamps its minimum to
`≥ 2.01` (line 310). -/
def applyDistanceRange (u : ConfigUpdate) (s : RendererState) : RendererState :=
  if u.minDistance.isSome || u.maxDistance.isSome then
    { s with config := { s.config with
                minDistance := u.minDistance.getD s.config.minDistance,
                maxDistance := u.maxDistance.getD s.config.maxDistance },
             controls := { s.controls with
                minDistance := max (u.minDistance.getD s.config.minDistance) 2.01,
                maxDistance := u.maxDistance.getD s.config.maxDistance } }
  else s

/-- `setConfig` stage for `updates.fieldOfView` (lines 1052-1055). -/
def applyFieldOfView (u : ConfigUpdate) (s : RendererState) : RendererState :=
  match u.fieldOfView with
  | some v => { s with config := { s.config with fieldOfView := v },
                       uniforms := { s.uniforms with uFieldOfView := v } }
  | none => s

/-- `setConfig` stage for `updates.showAccretionDisk` (lines 1057-1060). -/
def applyShowAccretionDisk (u : ConfigUpdate) (s : RendererState) : RendererState :=
  match u.showAccretionDisk with
  | some v => { s with config := { s.config with showAccretionDisk := v },
                       uniforms := { s.uniforms with uShowAccretionDisk := v } }
  | none => s

/-- `setConfig` stage for `updates.enableLorentzTransform`
(lines 1062-1066). -/
def applyLorentzTransform (u : ConfigUpdate) (s : RendererState) : RendererState :=
  match u.enableLorentzTransform with
  | some v => { s with config := { s.config with enableLorentzTransform := v },
                       uniforms :=
                         { s.uniforms with uEnableLorentzTransform := v } }
  | none => s

/-- `setConfig` stage for `updates.enableDopplerShift` (lines 1068-1071). -/
def applyDopplerShift (u : ConfigUpdate) (s : RendererState) : RendererState :=
  match u.enableDopplerShift with
  | some v => { s with config := { s.config with enableDopplerShift := v },
                       uniforms := { s.uniforms with uEnableDopplerShift := v } }
  | none => s

/-- `setConfig` stage for `updates.enableBeaming` (lines 1073-1076). -/
def applyEnableBeaming (u : ConfigUpdate) (s : RendererState) : RendererState :=
  match u.enableBeaming with
  | some v => { s with config := { s.config with enableBeaming := v },
                       uniforms := { s.uniforms with uEnableRelBeaming := v } }
  | none => s

/-- `BlackholeRenderer.setConfig` (lines 1008-1077): the field checks
applied in source order.  Fields of `Partial<BlackholeConfig>` that the
method never examines (quality, useDiskTexture, bloom settings, texture
URLs, resolutionScale) do not appear in any stage. -/
def setConfig (u : ConfigUpdate) (s : RendererState) : RendererState :=
  applyEnableBeaming u (applyDopplerShift u (applyLorentzTransform u
    (applyShowAccretionDisk u (applyFieldOfView u (applyDistanceRange u
      (applyEnableZoom u (applyTouchSensitivity u (applyMouseSensitivity u
        (applyEnableControls u (applyEnableOrbit u (applyOrbitSpeed u
          (applyCameraDistance u s))))))))))))

/-- The configuration defaults of the constructor merge (lines 640-666). -/
def defaultConfig : Config :=
  { quality := .medium
    cameraDistance := 10
    fieldOfView := 90
    enableOrbit := true
    orbitSpeed := 0.15
    enableControls := false
    mouseSensitivity := 0.002
    touchSensitivity := 0.003
    enableZoom := true
    minDistance := 2.1
    maxDistance := 50
    showAccretionDisk := true
    useDiskTexture := true
    enableLorentzTransform := true
    enableDopplerShift := true
    enableBeaming := true
    bloomStrength := 0.5
    bloomRadius := 0.3
    bloomThreshold := 0.8
    backgroundTextureUrl := ""
    starTextureUrl := ""
    diskTextureUrl := ""
    resolutionScale := 1 }

/-- The renderer state right after a fully-defaulted construction
(lines 668-694): observer made at distance 10 with `orbitSpeed := 0.15`,
controls initialized from the defaults (`setEnabled(false)`,
`setDistanceRange(2.1, 50)`), uniforms mirroring the config. -/
def defaultRendererState : RendererState :=
  { config := defaultConfig
    observer :=
      Observer.setManualControl false
        (Observer.setOrbitSpeed 0.15 (Observer.make 10))
    controls :=
      { enabled := false
        mouseSensitivity := 0.002
        touchSensitivity := 0.003
        enableZoom := true
        minDistance := max 2.1 2.01
        maxDistance := 50 }
    uniforms :=
      { uFieldOfView := 90
        uShowAccretionDisk := true
        uEnableLorentzTransform := true
        uEnableDopplerShift := true
        uEnableRelBeaming := true } }

/-- The all-absent partial update record. -/
def emptyUpdate : ConfigUpdate := {}

/-! ### Helper lemmas -/

theorem dot_rpow_eq_length_pow (p : Vec3) :
    (Vec3.dot p p) ^ (2.5 : ℝ) = p.length ^ (5 : ℕ) := by
  have h0 : 0 ≤ p.length := Vec3.length_nonneg p
  have h1 : Vec3.dot p p = p.length ^ (2 : ℕ) := (Vec3.length_sq p).symm
  rw [h1, ← Real.rpow_natCast p.length 2, ← Real.rpow_mul h0,
      ← Real.rpow_natCast p.length 5]
  norm_num

/-- The code's `pow(dot(point, point), 2.5)` denominator agrees with the
fifth power of the norm, so the acceleration of line 136 is exactly
`-1.5 * h2 * point / |point|^5`. -/
theorem accelOf_eq (h2 : ℝ) (p : Vec3) :
    accelOf h2 p = (-1.5 * h2 / p.length ^ 5) • p := by
  rw [accelOf, dot_rpow_eq_length_pow]

theorem trajectory_shift (h2 s : ℝ) (st : RayState) (n : ℕ) :
    trajectory h2 s st (n + 1) = trajectory h2 s (integrationStep h2 s st) n := by
  induction n with
  | zero => rfl
  | succ n ih =>
    calc trajectory h2 s st (n + 1 + 1)
        = integrationStep h2 s (trajectory h2 s st (n + 1)) := rfl
      _ = integrationStep h2 s (trajectory h2 s (integrationStep h2 s st) n) := by
          rw [ih]
      _ = trajectory h2 s (integrationStep h2 s st) (n + 1) := rfl

/-- The horizon mask evaluated at the `i`-th executed step of a trajectory. -/
def maskAt (h2 s : ℝ) (st : RayState) (i : ℕ) : Prop :=
  horizonMask (trajectory h2 s st i).point (trajectory h2 s st (i - 1)).point

theorem maskAt_one (h2 s : ℝ) (st : RayState) :
    maskAt h2 s st 1 ↔ horizonMask (integrationStep h2 s st).point st.point :=
  Iff.rfl

theorem maskAt_shift (h2 s : ℝ) (st : RayState) (m : ℕ) :
    maskAt h2 s st (m + 2) ↔ maskAt h2 s (integrationStep h2 s st) (m + 1) := by
  unfold maskAt
  rw [show m + 2 - 1 = m + 1 from rfl, show m + 1 - 1 = m from rfl,
      trajectory_shift h2 s st (m + 1), trajectory_shift h2 s st m]

theorem capturedInfo_withEvent (ev : Option DiskEvent) (o : Outcome) :
    capturedInfo (withEvent ev o) =
      (capturedInfo o).map (fun p => (p.1 + 1, p.2)) := by
  cases o <;> rfl

/-- The loop of lines 133-190 reports capture at step `k` with contribution
`c` exactly when `c` is the black contribution and `k` is the first step
index in `[1, n]` whose horizon mask holds. -/
theorem integrate_captured_iff (h2 s : ℝ) (sd : Bool) (n : ℕ) (st : RayState)
    (k : ℕ) (c : ℝ × ℝ × ℝ × ℝ) :
    capturedInfo (integrate h2 s sd n st) = some (k, c) ↔
      (c = captureContribution ∧ 1 ≤ k ∧ k ≤ n ∧ maskAt h2 s st k ∧
        ∀ j, 1 ≤ j → j < k → ¬ maskAt h2 s st j) := by
  induction n generalizing st k c with
  | zero =>
    simp only [integrate, capturedInfo]
    constructor
    · intro h; exact absurd h (by simp)
    · rintro ⟨-, h1, h0, -⟩; omega
  | succ n ih =>
    simp only [integrate]
    rw [if_neg (not_lt.mpr (Vec3.length_nonneg _))]
    by_cases hm : horizonMask (integrationStep h2 s st).point st.point
    · rw [if_pos hm]
      simp only [capturedInfo, Option.some.injEq, Prod.mk.injEq]
      constructor
      · rintro ⟨rfl, rfl⟩
        exact ⟨rfl, le_rfl, by omega, (maskAt_one h2 s st).mpr hm,
          fun j hj1 hjk => absurd hjk (by omega)⟩
      · rintro ⟨rfl, hk1, hkn, hmk, hnone⟩
        have hk : k = 1 := by
          by_contra hne
          exact hnone 1 le_rfl (by omega) ((maskAt_one h2 s st).mpr hm)
        subst hk
        exact ⟨rfl, rfl⟩
    · rw [if_neg hm]
      rw [capturedInfo_withEvent]
      constructor
      · intro h
        obtain ⟨⟨k', c'⟩, hp, heq⟩ := Option.map_eq_some'.mp h
        obtain ⟨hc', hk'1, hk'n, hmk', hnone'⟩ := (ih _ k' c').mp hp
        simp only [Prod.mk.injEq] at heq
        obtain ⟨hk, hc⟩ := heq
        subst hk
        subst hc
        refine ⟨hc', by omega, by omega, ?_, ?_⟩
        · obtain ⟨m, rfl⟩ : ∃ m, k' = m + 1 := ⟨k' - 1, by omega⟩
          exact (maskAt_shift h2 s st m).mpr hmk'
        · intro j hj1 hjlt
          obtain ⟨jm, rfl⟩ : ∃ jm, j = jm + 1 := ⟨j - 1, by omega⟩
          cases jm with
          | zero => exact fun hmj => hm ((maskAt_one h2 s st).mp hmj)
          | succ jmm =>
            intro hmj
            exact hnone' (jmm + 1) (by omega) (by omega)
              ((maskAt_shift h2 s st jmm).mp hmj)
      · rintro ⟨rfl, hk1, hkn, hmk, hnone⟩
        have hk2 : 2 ≤ k := by
          by_contra hlt
          have hk1' : k = 1 := by omega
          subst hk1'
          exact hm ((maskAt_one h2 s st).mp hmk)
        obtain ⟨m, rfl⟩ : ∃ m, k = m + 2 := ⟨k - 2, by omega⟩
        have hrhs : capturedInfo (integrate h2 s sd n (integrationStep h2 s st)) =
            some (m + 1, captureContribution) := by
          refine (ih _ (m + 1) _).mpr ⟨rfl, by omega, by omega, ?_, ?_⟩
          · exact (maskAt_shift h2 s st m).mp hmk
          · intro j hj1 hjlt
            obtain ⟨jm, rfl⟩ : ∃ jm, j = jm + 1 := ⟨j - 1, by omega⟩
            intro hmj
            exact hnone (jm + 2) (by omega) (by omega)
              ((maskAt_shift h2 s st jm).mpr hmj)
        rw [hrhs]
        rfl

theorem isCaptured_iff (o : Outcome) :
    isCaptured o ↔ ∃ k c, capturedInfo o = some (k, c) := by
  cases o <;> simp [isCaptured, capturedInfo]

theorem accelOf_zero (p : Vec3) : accelOf 0 p = 0 := by
  simp [accelOf, Vec3.smul_def, Vec3.zero_def]

/-- With `h2 = 0` the acceleration vanishes, so the trajectory is a straight
line traversed at constant velocity. -/
theorem trajectory_h2_zero (s : ℝ) (p v : Vec3) (n : ℕ) :
    trajectory 0 s ⟨p, v⟩ n = ⟨p + ((n : ℝ) * s) • v, v⟩ := by
  induction n with
  | zero =>
    rw [show ((0 : ℕ) : ℝ) = 0 from Nat.cast_zero, zero_mul, Vec3.smul_zero',
        Vec3.add_zero']
    rfl
  | succ n ih =>
    rw [trajectory, ih]
    simp only [integrationStep, accelOf_zero, Vec3.smul_zero_vec,
      Vec3.add_zero', Vec3.add_smul_add]
    have hc : (n : ℝ) * s + s = ((n + 1 : ℕ) : ℝ) * s := by push_cast; ring
    rw [hc]

theorem length_xonly (a : ℝ) : Vec3.length ⟨a, 0, 0⟩ = |a| := by
  rw [Vec3.length, Vec3.dot, show a * a + 0 * 0 + 0 * 0 = a ^ 2 by ring,
      Real.sqrt_sq_eq_abs]

theorem radial_point (s d : ℝ) (n : ℕ) :
    (trajectory 0 s ⟨⟨d, 0, 0⟩, ⟨-1, 0, 0⟩⟩ n).point = ⟨d - n * s, 0, 0⟩ := by
  rw [trajectory_h2_zero]
  show Vec3.mk d 0 0 + ((n : ℝ) * s) • Vec3.mk (-1) 0 0 = _
  rw [Vec3.smul_def, Vec3.add_def, Vec3.mk.injEq]
  refine ⟨by ring, by ring, by ring⟩

theorem radial_maskAt (s d : ℝ) (i : ℕ) :
    maskAt 0 s ⟨⟨d, 0, 0⟩, ⟨-1, 0, 0⟩⟩ i ↔
      (|d - i * s| < 1 ∧ |d - ((i - 1 : ℕ) : ℝ) * s| > 1) := by
  unfold maskAt horizonMask
  rw [radial_point, radial_point, length_xonly, length_xonly]

theorem initialH2_radial (d : ℝ) : initialH2 ⟨⟨d, 0, 0⟩, ⟨-1, 0, 0⟩⟩ = 0 := by
  simp [initialH2, Vec3.cross, Vec3.dot]

theorem updatePosition_r (o : Observer) : (Observer.updatePosition o).r = o.r := by
  unfold Observer.updatePosition
  split_ifs <;> rfl

theorem updatePosition_angularVelocity (o : Observer) :
    (Observer.updatePosition o).angularVelocity = o.angularVelocity := by
  unfold Observer.updatePosition
  split_ifs <;> rfl

theorem updatePosition_maxAngularVelocity (o : Observer) :
    (Observer.updatePosition o).maxAngularVelocity = o.maxAngularVelocity := by
  unfold Observer.updatePosition
  split_ifs <;> rfl

theorem applyCameraDistance_eq (u : ConfigUpdate) (s : RendererState) :
    applyCameraDistance u s =
      { s with
        config := { s.config with
          cameraDistance := u.cameraDistance.getD s.config.cameraDistance }
        observer := u.cameraDistance.elim s.observer
          (fun v => Observer.setDistance v s.observer) } := by
  unfold applyCameraDistance
  cases h : u.cameraDistance <;> rfl

theorem applyOrbitSpeed_eq (u : ConfigUpdate) (s : RendererState) :
    applyOrbitSpeed u s =
      { s with
        config := { s.config with
          orbitSpeed := u.orbitSpeed.getD s.config.orbitSpeed }
        observer := { s.observer with
          angularVelocity := u.orbitSpeed.elim s.observer.angularVelocity
            (fun v => min |v| s.observer.maxAngularVelocity) } } := by
  unfold applyOrbitSpeed
  cases h : u.orbitSpeed <;> rfl

theorem applyEnableOrbit_eq (u : ConfigUpdate) (s : RendererState) :
    applyEnableOrbit u s =
      { s with
        config := { s.config with
          enableOrbit := u.enableOrbit.getD s.config.enableOrbit }
        observer := { s.observer with
          moving := u.enableOrbit.elim s.observer.moving
            (fun v => v && !s.observer.manualControl) } } := by
  unfold applyEnableOrbit
  cases h : u.enableOrbit <;> rfl

theorem applyEnableControls_eq (u : ConfigUpdate) (s : RendererState) :
    applyEnableControls u s =
      { s with
        config := { s.config with
          enableControls := u.enableControls.getD s.config.enableControls }
        controls := { s.controls with
          enabled := u.enableControls.getD s.controls.enabled }
        observer := { s.observer with
          manualControl := u.enableControls.getD s.observer.manualControl
          manualYaw := u.enableControls.elim s.observer.manualYaw
            (fun v => if v then
                atan2 (Vec3.normalize s.observer.position).x
                  (Vec3.normalize s.observer.position).z
              else s.observer.manualYaw)
          manualPitch := u.enableControls.elim s.observer.manualPitch
            (fun v => if v then
                Real.arcsin (Vec3.normalize s.observer.position).y
              else s.observer.manualPitch) } } := by
  unfold applyEnableControls
  cases h : u.enableControls with
  | none => rfl
  | some v => cases v <;> rfl

theorem applyMouseSensitivity_eq (u : ConfigUpdate) (s : RendererState) :
    applyMouseSensitivity u s =
      { s with
        config := { s.config with
          mouseSensitivity := u.mouseSensitivity.getD s.config.mouseSensitivity }
        controls := { s.controls with
          mouseSensitivity :=
            u.mouseSensitivity.getD s.controls.mouseSensitivity } } := by
  unfold applyMouseSensitivity
  cases h : u.mouseSensitivity <;> rfl

theorem applyTouchSensitivity_eq (u : ConfigUpdate) (s : RendererState) :
    applyTouchSensitivity u s =
      { s with
        config := { s.config with
          touchSensitivity := u.touchSensitivity.getD s.config.touchSensitivity }
        controls := { s.controls with
          touchSensitivity :=
            u.touchSensitivity.getD s.controls.touchSensitivity } } := by
  unfold applyTouchSensitivity
  cases h : u.touchSensitivity <;> rfl

theorem applyEnableZoom_eq (u : ConfigUpdate) (s : RendererState) :
    applyEnableZoom u s =
      { s with
        config := { s.config with
          enableZoom := u.enableZoom.getD s.config.enableZoom }
        controls := { s.controls with
          enableZoom := u.enableZoom.getD s.controls.enableZoom } } := by
  unfold applyEnableZoom
  cases h : u.enableZoom <;> rfl

theorem applyDistanceRange_eq (u : ConfigUpdate) (s : RendererState) :
    applyDistanceRange u s =
      { s with
        config := { s.config with
          minDistance := u.minDistance.getD s.config.minDistance
          maxDistance := u.maxDistance.getD s.config.maxDistance }
        controls := { s.controls with
          minDistance :=
            if u.minDistance.isSome || u.maxDistance.isSome then
              max (u.minDistance.getD s.config.minDistance) 2.01
            else s.controls.minDistance
          maxDistance :=
            if u.minDistance.isSome || u.maxDistance.isSome then
              u.maxDistance.getD s.config.maxDistance
            else s.controls.maxDistance } } := by
  unfold applyDistanceRange
  cases hm : u.minDistance <;> cases hM : u.maxDistance <;> rfl

theorem applyFieldOfView_eq (u : ConfigUpdate) (s : RendererState) :
    applyFieldOfView u s =
      { s with
        config := { s.config with
          fieldOfView := u.fieldOfView.getD s.config.fieldOfView }
        uniforms := { s.uniforms with
          uFieldOfView := u.fieldOfView.getD s.uniforms.uFieldOfView } } := by
  unfold applyFieldOfView
  cases h : u.fieldOfView <;> rfl

theorem applyShowAccretionDisk_eq (u : ConfigUpdate) (s : RendererState) :
    applyShowAccretionDisk u s =
      { s with
        config := { s.config with
          showAccretionDisk := u.showAccretionDisk.getD s.config.showAccretionDisk }
        uniforms := { s.uniforms with
          uShowAccretionDisk :=
            u.showAccretionDisk.getD s.uniforms.uShowAccretionDisk } } := by
  unfold applyShowAccretionDisk
  cases h : u.showAccretionDisk <;> rfl

theorem applyLorentzTransform_eq (u : ConfigUpdate) (s : RendererState) :
    applyLorentzTransform u s =
      { s with
        config := { s.config with
          enableLorentzTransform :=
            u.enableLorentzTransform.getD s.config.enableLorentzTransform }
        uniforms := { s.uniforms with
          uEnableLorentzTransform :=
            u.enableLorentzTransform.getD s.uniforms.uEnableLorentzTransform } } := by
  unfold applyLorentzTransform
  cases h : u.enableLorentzTransform <;> rfl

theorem applyDopplerShift_eq (u : ConfigUpdate) (s : RendererState) :
    applyDopplerShift u s =
      { s with
        config := { s.config with
          enableDopplerShift :=
            u.enableDopplerShift.getD s.config.enableDopplerShift }
        uniforms := { s.uniforms with
          uEnableDopplerShift :=
            u.enableDopplerShift.getD s.uniforms.uEnableDopplerShift } } := by
  unfold applyDopplerShift
  cases h : u.enableDopplerShift <;> rfl

theorem applyEnableBeaming_eq (u : ConfigUpdate) (s : RendererState) :
    applyEnableBeaming u s =
      { s with
        config := { s.config with
          enableBeaming := u.enableBeaming.getD s.config.enableBeaming }
        uniforms := { s.uniforms with
          uEnableRelBeaming := u.enableBeaming.getD s.uniforms.uEnableRelBeaming } } := by
  unfold applyEnableBeaming
  cases h : u.enableBeaming <;> rfl

theorem applyCameraDistance_config (u : ConfigUpdate) (s : RendererState) :
    (applyCameraDistance u s).config =
      { s.config with
          cameraDistance := u.cameraDistance.getD s.config.cameraDistance } := by
  rw [applyCameraDistance_eq]

theorem applyOrbitSpeed_config (u : ConfigUpdate) (s : RendererState) :
    (applyOrbitSpeed u s).config =
      { s.config with
          orbitSpeed := u.orbitSpeed.getD s.config.orbitSpeed } := by
  rw [applyOrbitSpeed_eq]

theorem applyEnableOrbit_config (u : ConfigUpdate) (s : RendererState) :
    (applyEnableOrbit u s).config =
      { s.config with
          enableOrbit := u.enableOrbit.getD s.config.enableOrbit } := by
  rw [applyEnableOrbit_eq]

theorem applyEnableControls_config (u : ConfigUpdate) (s : RendererState) :
    (applyEnableControls u s).config =
      { s.config with
          enableControls := u.enableControls.getD s.config.enableControls } := by
  rw [applyEnableControls_eq]

theorem applyMouseSensitivity_config (u : ConfigUpdate) (s : RendererState) :
    (applyMouseSensitivity u s).config =
      { s.config with
          mouseSensitivity := u.mouseSensitivity.getD s.config.mouseSensitivity } := by
  rw [applyMouseSensitivity_eq]

theorem applyTouchSensitivity_config (u : ConfigUpdate) (s : RendererState) :
    (applyTouchSensitivity u s).config =
      { s.config with
          touchSensitivity := u.touchSensitivity.getD s.config.touchSensitivity } := by
  rw [applyTouchSensitivity_eq]

theorem applyEnableZoom_config (u : ConfigUpdate) (s : RendererState) :
    (applyEnableZoom u s).config =
      { s.config with
          enableZoom := u.enableZoom.getD s.config.enableZoom } := by
  rw [applyEnableZoom_eq]

theorem applyDistanceRange_config (u : ConfigUpdate) (s : RendererState) :
    (applyDistanceRange u s).config =
      { s.config with
          minDistance := u.minDistance.getD s.config.minDistance
          maxDistance := u.maxDistance.getD s.config.maxDistance } := by
  rw [applyDistanceRange_eq]

theorem applyFieldOfView_config (u : ConfigUpdate) (s : RendererState) :
    (applyFieldOfView u s).config =
      { s.config with
          fieldOfView := u.fieldOfView.getD s.config.fieldOfView } := by
  rw [applyFieldOfView_eq]

theorem applyShowAccretionDisk_config (u : ConfigUpdate) (s : RendererState) :
    (applyShowAccretionDisk u s).config =
      { s.config with
          showAccretionDisk := u.showAccretionDisk.getD s.config.showAccretionDisk } := by
  rw [applyShowAccretionDisk_eq]

theorem applyLorentzTransform_config (u : ConfigUpdate) (s : RendererState) :
    (applyLorentzTransform u s).config =
      { s.config with
          enableLorentzTransform := u.enableLorentzTransform.getD s.config.enableLorentzTransform } := by
  rw [applyLorentzTransform_eq]

theorem applyDopplerShift_config (u : ConfigUpdate) (s : RendererState) :
    (applyDopplerShift u s).config =
      { s.config with
          enableDopplerShift := u.enableDopplerShift.getD s.config.enableDopplerShift } := by
  rw [applyDopplerShift_eq]

theorem applyEnableBeaming_config (u : ConfigUpdate) (s : RendererState) :
    (applyEnableBeaming u s).config =
      { s.config with
          enableBeaming := u.enableBeaming.getD s.config.enableBeaming } := by
  rw [applyEnableBeaming_eq]

theorem applyCameraDistance_observer (u : ConfigUpdate) (s : RendererState) :
    (applyCameraDistance u s).observer =
      u.cameraDistance.elim s.observer
        (fun v => Observer.setDistance v s.observer) := by
  rw [applyCameraDistance_eq]

theorem applyOrbitSpeed_observer (u : ConfigUpdate) (s : RendererState) :
    (applyOrbitSpeed u s).observer =
      { s.observer with
        angularVelocity := u.orbitSpeed.elim s.observer.angularVelocity
          (fun v => min |v| s.observer.maxAngularVelocity) } := by
  rw [applyOrbitSpeed_eq]

theorem applyEnableOrbit_observer (u : ConfigUpdate) (s : RendererState) :
    (applyEnableOrbit u s).observer =
      { s.observer with
        moving := u.enableOrbit.elim s.observer.moving
          (fun v => v && !s.observer.manualControl) } := by
  rw [applyEnableOrbit_eq]

theorem applyEnableControls_observer (u : ConfigUpdate) (s : RendererState) :
    (applyEnableControls u s).observer =
      { s.observer with
        manualControl := u.enableControls.getD s.observer.manualControl
        manualYaw := u.enableControls.elim s.observer.manualYaw
          (fun v => if v then
              atan2 (Vec3.normalize s.observer.position).x
                (Vec3.normalize s.observer.position).z
            else s.observer.manualYaw)
        manualPitch := u.enableControls.elim s.observer.manualPitch
          (fun v => if v then
              Real.arcsin (Vec3.normalize s.observer.position).y
            else s.observer.manualPitch) } := by
  rw [applyEnableControls_eq]

theorem applyMouseSensitivity_observer (u : ConfigUpdate) (s : RendererState) :
    (applyMouseSensitivity u s).observer =
      s.observer := by
  rw [applyMouseSensitivity_eq]

theorem applyTouchSensitivity_observer (u : ConfigUpdate) (s : RendererState) :
    (applyTouchSensitivity u s).observer =
      s.observer := by
  rw [applyTouchSensitivity_eq]

theorem applyEnableZoom_observer (u : ConfigUpdate) (s : RendererState) :
    (applyEnableZoom u s).observer =
      s.observer := by
  rw [applyEnableZoom_eq]

theorem applyDistanceRange_observer (u : ConfigUpdate) (s : RendererState) :
    (applyDistanceRange u s).observer =
      s.observer := by
  rw [applyDistanceRange_eq]

theorem applyFieldOfView_observer (u : ConfigUpdate) (s : RendererState) :
    (applyFieldOfView u s).observer =
      s.observer := by
  rw [applyFieldOfView_eq]

theorem applyShowAccretionDisk_observer (u : ConfigUpdate) (s : RendererState) :
    (applyShowAccretionDisk u s).observer =
      s.observer := by
  rw [applyShowAccretionDisk_eq]

theorem applyLorentzTransform_observer (u : ConfigUpdate) (s : RendererState) :
    (applyLorentzTransform u s).observer =
      s.observer := by
  rw [applyLorentzTransform_eq]

theorem applyDopplerShift_observer (u : ConfigUpdate) (s : RendererState) :
    (applyDopplerShift u s).observer =
      s.observer := by
  rw [applyDopplerShift_eq]

theorem applyEnableBeaming_observer (u : ConfigUpdate) (s : RendererState) :
    (applyEnableBeaming u s).observer =
      s.observer := by
  rw [applyEnableBeaming_eq]

theorem applyCameraDistance_controls (u : ConfigUpdate) (s : RendererState) :
    (applyCameraDistance u s).controls =
      s.controls := by
  rw [applyCameraDistance_eq]

theorem applyOrbitSpeed_controls (u : ConfigUpdate) (s : RendererState) :
    (applyOrbitSpeed u s).controls =
      s.controls := by
  rw [applyOrbitSpeed_eq]

theorem applyEnableOrbit_controls (u : ConfigUpdate) (s : RendererState) :
    (applyEnableOrbit u s).controls =
      s.controls := by
  rw [applyEnableOrbit_eq]

theorem applyEnableControls_controls (u : ConfigUpdate) (s : RendererState) :
    (applyEnableControls u s).controls =
      { s.controls with enabled := u.enableControls.getD s.controls.enabled } := by
  rw [applyEnableControls_eq]

theorem applyMouseSensitivity_controls (u : ConfigUpdate) (s : RendererState) :
    (applyMouseSensitivity u s).controls =
      { s.controls with
        mouseSensitivity := u.mouseSensitivity.getD s.controls.mouseSensitivity } := by
  rw [applyMouseSensitivity_eq]

theorem applyTouchSensitivity_controls (u : ConfigUpdate) (s : RendererState) :
    (applyTouchSensitivity u s).controls =
      { s.controls with
        touchSensitivity := u.touchSensitivity.getD s.controls.touchSensitivity } := by
  rw [applyTouchSensitivity_eq]

theorem applyEnableZoom_controls (u : ConfigUpdate) (s : RendererState) :
    (applyEnableZoom u s).controls =
      { s.controls with
        enableZoom := u.enableZoom.getD s.controls.enableZoom } := by
  rw [applyEnableZoom_eq]

theorem applyDistanceRange_controls (u : ConfigUpdate) (s : RendererState) :
    (applyDistanceRange u s).controls =
      { s.controls with
        minDistance :=
          if u.minDistance.isSome || u.maxDistance.isSome then
            max (u.minDistance.getD s.config.minDistance) 2.01
          else s.controls.minDistance
        maxDistance :=
          if u.minDistance.isSome || u.maxDistance.isSome then
            u.maxDistance.getD s.config.maxDistance
          else s.controls.maxDistance } := by
  rw [applyDistanceRange_eq]

theorem applyFieldOfView_controls (u : ConfigUpdate) (s : RendererState) :
    (applyFieldOfView u s).controls =
      s.controls := by
  rw [applyFieldOfView_eq]

theorem applyShowAccretionDisk_controls (u : ConfigUpdate) (s : RendererState) :
    (applyShowAccretionDisk u s).controls =
      s.controls := by
  rw [applyShowAccretionDisk_eq]

theorem applyLorentzTransform_controls (u : ConfigUpdate) (s : RendererState) :
    (applyLorentzTransform u s).controls =
      s.controls := by
  rw [applyLorentzTransform_eq]

theorem applyDopplerShift_controls (u : ConfigUpdate) (s : RendererState) :
    (applyDopplerShift u s).controls =
      s.controls := by
  rw [applyDopplerShift_eq]

theorem applyEnableBeaming_controls (u : ConfigUpdate) (s : RendererState) :
    (applyEnableBeaming u s).controls =
      s.controls := by
  rw [applyEnableBeaming_eq]

theorem applyCameraDistance_uniforms (u : ConfigUpdate) (s : RendererState) :
    (applyCameraDistance u s).uniforms =
      s.uniforms := by
  rw [applyCameraDistance_eq]

theorem applyOrbitSpeed_uniforms (u : ConfigUpdate) (s : RendererState) :
    (applyOrbitSpeed u s).uniforms =
      s.uniforms := by
  rw [applyOrbitSpeed_eq]

theorem applyEnableOrbit_uniforms (u : ConfigUpdate) (s : RendererState) :
    (applyEnableOrbit u s).uniforms =
      s.uniforms := by
  rw [applyEnableOrbit_eq]

theorem applyEnableControls_uniforms (u : ConfigUpdate) (s : RendererState) :
    (applyEnableControls u s).uniforms =
      s.uniforms := by
  rw [applyEnableControls_eq]

theorem applyMouseSensitivity_uniforms (u : ConfigUpdate) (s : RendererState) :
    (applyMouseSensitivity u s).uniforms =
      s.uniforms := by
  rw [applyMouseSensitivity_eq]

theorem applyTouchSensitivity_uniforms (u : ConfigUpdate) (s : RendererState) :
    (applyTouchSensitivity u s).uniforms =
      s.uniforms := by
  rw [applyTouchSensitivity_eq]

theorem applyEnableZoom_uniforms (u : ConfigUpdate) (s : RendererState) :
    (applyEnableZoom u s).uniforms =
      s.uniforms := by
  rw [applyEnableZoom_eq]

theorem applyDistanceRange_uniforms (u : ConfigUpdate) (s : RendererState) :
    (applyDistanceRange u s).uniforms =
      s.uniforms := by
  rw [applyDistanceRange_eq]

theorem applyFieldOfView_uniforms (u : ConfigUpdate) (s : RendererState) :
    (applyFieldOfView u s).uniforms =
      { s.uniforms with
        uFieldOfView := u.fieldOfView.getD s.uniforms.uFieldOfView } := by
  rw [applyFieldOfView_eq]

theorem applyShowAccretionDisk_uniforms (u : ConfigUpdate) (s : RendererState) :
    (applyShowAccretionDisk u s).uniforms =
      { s.uniforms with
        uShowAccretionDisk := u.showAccretionDisk.getD s.uniforms.uShowAccretionDisk } := by
  rw [applyShowAccretionDisk_eq]

theorem applyLorentzTransform_uniforms (u : ConfigUpdate) (s : RendererState) :
    (applyLorentzTransform u s).uniforms =
      { s.uniforms with
        uEnableLorentzTransform :=
          u.enableLorentzTransform.getD s.uniforms.uEnableLorentzTransform } := by
  rw [applyLorentzTransform_eq]

theorem applyDopplerShift_uniforms (u : ConfigUpdate) (s : RendererState) :
    (applyDopplerShift u s).uniforms =
      { s.uniforms with
        uEnableDopplerShift :=
          u.enableDopplerShift.getD s.uniforms.uEnableDopplerShift } := by
  rw [applyDopplerShift_eq]

theorem applyEnableBeaming_uniforms (u : ConfigUpdate) (s : RendererState) :
    (applyEnableBeaming u s).uniforms =
      { s.uniforms with
        uEnableRelBeaming := u.enableBeaming.getD s.uniforms.uEnableRelBeaming } := by
  rw [applyEnableBeaming_eq]

theorem updatePosition_manualControl (o : Observer) :
    (Observer.updatePosition o).manualControl = o.manualControl := by
  unfold Observer.updatePosition
  split_ifs <;> rfl

/-- The camera radius after `setConfig`: clamped to `≥ 2.0` when a
`cameraDistance` is present, untouched otherwise. -/
theorem setConfig_observer_r (u : ConfigUpdate) (s : RendererState) :
    (setConfig u s).observer.r =
      u.cameraDistance.elim s.observer.r (fun v => max v 2) := by
  simp only [setConfig, applyEnableBeaming_observer, applyDopplerShift_observer,
    applyLorentzTransform_observer, applyShowAccretionDisk_observer,
    applyFieldOfView_observer, applyDistanceRange_observer,
    applyEnableZoom_observer, applyTouchSensitivity_observer,
    applyMouseSensitivity_observer, applyEnableControls_observer,
    applyEnableOrbit_observer, applyOrbitSpeed_observer,
    applyCameraDistance_observer]
  cases h : u.cameraDistance with
  | none => rfl
  | some v =>
    show (Observer.setDistance v s.observer).r = max v 2
    rw [Observer.setDistance, updatePosition_r]

theorem update_r (delta : ℝ) (o : Observer) : (Observer.update delta o).r = o.r := by
  simp only [Observer.update, updatePosition_r]
  split_ifs <;> rfl

/-- The angular-velocity ramp performed by one `update` call in orbit mode
(lines 599-614), extracted from the state plumbing. -/
theorem update_angularVelocity (delta : ℝ) (o : Observer)
    (h : o.manualControl = false) :
    (Observer.update delta o).angularVelocity =
      (if o.moving = true then
        if o.angularVelocity < o.maxAngularVelocity then
          o.angularVelocity + delta / o.r
        else o.maxAngularVelocity
      else
        if 0 < o.angularVelocity then o.angularVelocity - delta / o.r
        else 0) := by
  simp only [Observer.update, updatePosition_angularVelocity, h,
    Bool.false_eq_true, if_false]
  split_ifs <;> rfl

/-- `setConfig` on the configuration record: each of the 14 fields the
method checks is overwritten exactly when present; the remaining fields
(quality, useDiskTexture, bloom settings, texture URLs, resolutionScale)
are never touched. -/
theorem setConfig_config (u : ConfigUpdate) (s : RendererState) :
    (setConfig u s).config =
      { s.config with
        cameraDistance := u.cameraDistance.getD s.config.cameraDistance
        orbitSpeed := u.orbitSpeed.getD s.config.orbitSpeed
        enableOrbit := u.enableOrbit.getD s.config.enableOrbit
        enableControls := u.enableControls.getD s.config.enableControls
        mouseSensitivity := u.mouseSensitivity.getD s.config.mouseSensitivity
        touchSensitivity := u.touchSensitivity.getD s.config.touchSensitivity
        enableZoom := u.enableZoom.getD s.config.enableZoom
        minDistance := u.minDistance.getD s.config.minDistance
        maxDistance := u.maxDistance.getD s.config.maxDistance
        fieldOfView := u.fieldOfView.getD s.config.fieldOfView
        showAccretionDisk := u.showAccretionDisk.getD s.config.showAccretionDisk
        enableLorentzTransform :=
          u.enableLorentzTransform.getD s.config.enableLorentzTransform
        enableDopplerShift :=
          u.enableDopplerShift.getD s.config.enableDopplerShift
        enableBeaming := u.enableBeaming.getD s.config.enableBeaming } := by
  simp only [setConfig, applyEnableBeaming_config, applyDopplerShift_config,
    applyLorentzTransform_config, applyShowAccretionDisk_config,
    applyFieldOfView_config, applyDistanceRange_config, applyEnableZoom_config,
    applyTouchSensitivity_config, applyMouseSensitivity_config,
    applyEnableControls_config, applyEnableOrbit_config, applyOrbitSpeed_config,
    applyCameraDistance_config]

/-- `setConfig` on the uniform snapshot: the five mirrored uniforms are
overwritten exactly when the matching field is present. -/
theorem setConfig_uniforms (u : ConfigUpdate) (s : RendererState) :
    (setConfig u s).uniforms =
      { uFieldOfView := u.fieldOfView.getD s.uniforms.uFieldOfView
        uShowAccretionDisk :=
          u.showAccretionDisk.getD s.uniforms.uShowAccretionDisk
        uEnableLorentzTransform :=
          u.enableLorentzTransform.getD s.uniforms.uEnableLorentzTransform
        uEnableDopplerShift :=
          u.enableDopplerShift.getD s.uniforms.uEnableDopplerShift
        uEnableRelBeaming :=
          u.enableBeaming.getD s.uniforms.uEnableRelBeaming } := by
  simp only [setConfig, applyEnableBeaming_uniforms, applyDopplerShift_uniforms,
    applyLorentzTransform_uniforms, applyShowAccretionDisk_uniforms,
    applyFieldOfView_uniforms, applyDistanceRange_uniforms,
    applyEnableZoom_uniforms, applyTouchSensitivity_uniforms,
    applyMouseSensitivity_uniforms, applyEnableControls_uniforms,
    applyEnableOrbit_uniforms, applyOrbitSpeed_uniforms,
    applyCameraDistance_uniforms]

/-- `setConfig` on the camera-controls state: sensitivities, zoom and the
enabled flag are overwritten exactly when present; the distance range is
rewritten (with the minimum clamped to `≥ 2.01`) exactly when either bound
is present. -/
theorem setConfig_controls (u : ConfigUpdate) (s : RendererState) :
    (setConfig u s).controls =
      { enabled := u.enableControls.getD s.controls.enabled
        mouseSensitivity := u.mouseSensitivity.getD s.controls.mouseSensitivity
        touchSensitivity := u.touchSensitivity.getD s.controls.touchSensitivity
        enableZoom := u.enableZoom.getD s.controls.enableZoom
        minDistance :=
          if u.minDistance.isSome || u.maxDistance.isSome then
            max (u.minDistance.getD s.config.minDistance) 2.01
          else s.controls.minDistance
        maxDistance :=
          if u.minDistance.isSome || u.maxDistance.isSome then
            u.maxDistance.getD s.config.maxDistance
          else s.controls.maxDistance } := by
  simp only [setConfig, applyEnableBeaming_controls, applyDopplerShift_controls,
    applyLorentzTransform_controls, applyShowAccretionDisk_controls,
    applyFieldOfView_controls, applyDistanceRange_controls,
    applyEnableZoom_controls, applyTouchSensitivity_controls,
    applyMouseSensitivity_controls, applyEnableControls_controls,
    applyEnableOrbit_controls, applyOrbitSpeed_controls,
    applyCameraDistance_controls, applyEnableZoom_config,
    applyTouchSensitivity_config, applyMouseSensitivity_config,
    applyEnableControls_config, applyEnableOrbit_config, applyOrbitSpeed_config,
    applyCameraDistance_config]

/-- The observer's manual-control flag after `setConfig` mirrors
`enableControls`. -/
theorem setConfig_observer_manualControl (u : ConfigUpdate) (s : RendererState) :
    (setConfig u s).observer.manualControl =
      u.enableControls.getD s.observer.manualControl := by
  simp only [setConfig, applyEnableBeaming_observer, applyDopplerShift_observer,
    applyLorentzTransform_observer, applyShowAccretionDisk_observer,
    applyFieldOfView_observer, applyDistanceRange_observer,
    applyEnableZoom_observer, applyTouchSensitivity_observer,
    applyMouseSensitivity_observer, applyEnableControls_observer,
    applyEnableOrbit_observer, applyOrbitSpeed_observer,
    applyCameraDistance_observer]
  have harg : (u.cameraDistance.elim s.observer
      (fun v => Observer.setDistance v s.observer)).manualControl =
        s.observer.manualControl := by
    cases h : u.cameraDistance with
    | none => rfl
    | some v =>
      show (Observer.setDistance v s.observer).manualControl = _
      rw [Observer.setDistance, updatePosition_manualControl]
  rw [harg]

/-- Round trip of the orbit-to-manual snapshot: converting a point on the
sphere of radius `r` to the yaw/pitch of lines 521-522
(`atan2(x, z)`, `asin(y)` on the normalized point) and back through the
spherical formula of lines 552-554 reproduces the point exactly. -/
theorem spherical_roundtrip (r x y z : ℝ) (hr : 0 < r)
    (hnorm : x * x + y * y + z * z = r * r) :
    r * Real.cos (Real.arcsin (y / r)) * Real.sin (atan2 (x / r) (z / r)) = x ∧
    r * Real.sin (Real.arcsin (y / r)) = y ∧
    r * Real.cos (Real.arcsin (y / r)) * Real.cos (atan2 (x / r) (z / r)) = z := by
  have hxz : 0 ≤ x * x + z * z := by nlinarith [sq_nonneg x, sq_nonneg z]
  have hylo : -r ≤ y := by nlinarith [sq_nonneg (y + r), sq_nonneg x, sq_nonneg z]
  have hyhi : y ≤ r := by nlinarith [sq_nonneg (y - r), sq_nonneg x, sq_nonneg z]
  have hcos : Real.cos (Real.arcsin (y / r)) = Real.sqrt (x * x + z * z) / r := by
    rw [Real.cos_arcsin]
    rw [show 1 - (y / r) ^ 2 = (x * x + z * z) / r ^ 2 by
          field_simp
          nlinarith [hnorm]]
    rw [Real.sqrt_div hxz, Real.sqrt_sq hr.le]
  have habs : Complex.abs ⟨z / r, x / r⟩ = Real.sqrt (x * x + z * z) / r := by
    rw [Complex.abs_apply, Complex.normSq_mk]
    rw [show z / r * (z / r) + x / r * (x / r) = (x * x + z * z) / r ^ 2 by
          field_simp
          ring]
    rw [Real.sqrt_div hxz, Real.sqrt_sq hr.le]
  refine ⟨?_, ?_, ?_⟩
  · rw [hcos, atan2, Complex.sin_arg, habs]
    by_cases hs : Real.sqrt (x * x + z * z) = 0
    · have hx0 : x = 0 := by
        have := (Real.sqrt_eq_zero'.mp hs)
        nlinarith [sq_nonneg x, sq_nonneg z]
      rw [hs, hx0]
      simp
    · field_simp
  · rw [Real.sin_arcsin (by rw [le_div_iff₀ hr]; linarith)
        ((div_le_one hr).mpr hyhi)]
    field_simp
  · rw [hcos, atan2]
    by_cases hs : Real.sqrt (x * x + z * z) = 0
    · have hz0 : z = 0 := by
        have := (Real.sqrt_eq_zero'.mp hs)
        nlinarith [sq_nonneg x, sq_nonneg z]
      rw [hs, hz0]
      simp
    · have hw : (⟨z / r, x / r⟩ : ℂ) ≠ 0 := by
        intro h0
        apply hs
        have hzz : z / r = 0 ∧ x / r = 0 := by
          constructor
          · exact congrArg Complex.re h0
          · exact congrArg Complex.im h0
        have hx0 : x = 0 := by
          have := hzz.2
          field_simp at this
          exact this
        have hz0 : z = 0 := by
          have := hzz.1
          field_simp at this
          exact this
        rw [hx0, hz0]
        simp
      rw [Complex.cos_arg hw, habs]
      field_simp

/-! ### Claim theorems -/

/-- C1: one step of the geodesic integrator performs, in this order,
`position += velocity * Δs`, then `a = -1.5 * h2 * position / |position|^5`
at the updated position, then `velocity += a * Δs`, with `Δs` the step size
of the active quality preset — exactly this formula. -/
theorem c1_integration_step_formula (q : Quality) (h2 : ℝ) (st : RayState) :
    integrationStep h2 (stepSize q) st =
      { point := st.point + stepSize q • st.velocity
        velocity := st.velocity + stepSize q •
          ((-1.5 * h2 / (st.point + stepSize q • st.velocity).length ^ 5) •
            (st.point + stepSize q • st.velocity)) } := by
  simp only [integrationStep, accelOf_eq]

/-- C2 (amended): the ray is declared captured at step `k` — the loop stops
there and the capture contribution is pure black with full opacity — if and
only if `k` is the first step whose updated position satisfies
`|position| < 1.0` while the saved old position satisfies
`|old_position| > 1.0` (strictly greater, not `≥` as the original claim
states). -/
theorem c2_capture_iff_strict (h2 s : ℝ) (sd : Bool) (n : ℕ) (st : RayState)
    (k : ℕ) (c : ℝ × ℝ × ℝ × ℝ) :
    capturedInfo (integrate h2 s sd n st) = some (k, c) ↔
      (c = (0, 0, 0, 1) ∧ 1 ≤ k ∧ k ≤ n ∧
        ((trajectory h2 s st k).point.length < 1 ∧
          (trajectory h2 s st (k - 1)).point.length > 1) ∧
        ∀ j, 1 ≤ j → j < k →
          ¬ ((trajectory h2 s st j).point.length < 1 ∧
              (trajectory h2 s st (j - 1)).point.length > 1)) := by
  rw [integrate_captured_iff]
  exact Iff.rfl

/-- C2 counterexample: a step whose old position has length exactly `1.0`
and whose new position has length `0.95`.  The claim's condition
(`|position| < 1.0` and `|old_position| ≥ 1.0`) holds, yet the code's
`length(oldpoint) > 1.0` test fails and the ray is not captured. -/
theorem c2_counterexample :
    (integrationStep 0 0.05 ⟨⟨1, 0, 0⟩, ⟨-1, 0, 0⟩⟩).point.length < 1 ∧
    (1 : ℝ) ≤ (Vec3.mk 1 0 0).length ∧
    ¬ isCaptured (integrate 0 0.05 false 1 ⟨⟨1, 0, 0⟩, ⟨-1, 0, 0⟩⟩) := by
  have hpt : (integrationStep 0 0.05 ⟨⟨1, 0, 0⟩, ⟨-1, 0, 0⟩⟩).point =
      (trajectory 0 0.05 ⟨⟨1, 0, 0⟩, ⟨-1, 0, 0⟩⟩ 1).point := rfl
  refine ⟨?_, ?_, ?_⟩
  · rw [hpt, radial_point, length_xonly]
    rw [show ((1 : ℕ) : ℝ) = 1 from Nat.cast_one]
    rw [show |(1 : ℝ) - 1 * 0.05| = 0.95 by rw [abs_of_pos] <;> norm_num]
    norm_num
  · rw [length_xonly]
    norm_num
  · rw [isCaptured_iff]
    rintro ⟨k, c, hkc⟩
    rw [integrate_captured_iff] at hkc
    obtain ⟨-, hk1, hkN, hmask, -⟩ := hkc
    have hk : k = 1 := by omega
    subst hk
    rw [radial_maskAt] at hmask
    obtain ⟨-, hgt⟩ := hmask
    norm_num at hgt

/-- C4 (amended): a ray whose initial velocity points exactly at the black
hole center (`h2 = 0`) launched from camera distance `d ≥ 2.0` is captured
before completing the preset's maximum step count, provided the total path
length of the integration can actually reach the horizon
(`d < 1 + N * Δs`) and no step lands exactly on `|position| = 1` (where the
strict `> 1.0` test of line 142 would let the ray slip through). -/
theorem c4_radial_capture (q : Quality) (d : ℝ) (sd : Bool)
    (hd2 : 2 ≤ d)
    (hreach : d < 1 + (integrationSteps q : ℝ) * stepSize q)
    (hnever1 : ∀ i : ℕ, i ≤ integrationSteps q → d - i * stepSize q ≠ 1) :
    isCaptured (integrateRay (stepSize q) sd (integrationSteps q)
      ⟨⟨d, 0, 0⟩, ⟨-1, 0, 0⟩⟩) := by
  have hs0 : 0 < stepSize q := by cases q <;> norm_num [stepSize]
  have hs2 : stepSize q < 2 := by cases q <;> norm_num [stepSize]
  set s := stepSize q with hs
  set N := integrationSteps q with hN
  classical
  have hex : ∃ i : ℕ, d - i * s < 1 := ⟨N, by linarith⟩
  set k := Nat.find hex with hkdef
  have hkP : d - k * s < 1 := Nat.find_spec hex
  have hkmin : ∀ j, j < k → ¬ (d - j * s < 1) := fun j hj => Nat.find_min hex hj
  have hk1 : 1 ≤ k := by
    by_contra h
    have h0 : k = 0 := by omega
    rw [h0] at hkP
    push_cast at hkP
    linarith
  have hkN : k ≤ N := Nat.find_min' hex (by linarith)
  obtain ⟨m, hmk⟩ : ∃ m, k = m + 1 := ⟨k - 1, by omega⟩
  have hprev : 1 < d - m * s := by
    have h1 : ¬ (d - m * s < 1) := hkmin m (by omega)
    have h2 : d - m * s ≠ 1 := hnever1 m (by omega)
    push_neg at h1
    rcases lt_or_eq_of_le h1 with h | h
    · exact h
    · exact absurd h.symm h2
  have hcast : (k : ℝ) = (m : ℝ) + 1 := by rw [hmk]; push_cast; ring
  have hcur_lo : -1 < d - k * s := by
    rw [hcast]
    have : d - ((m : ℝ) + 1) * s = d - m * s - s := by ring
    rw [this]
    linarith
  rw [integrateRay, initialH2_radial, isCaptured_iff]
  refine ⟨k, captureContribution, ?_⟩
  rw [integrate_captured_iff]
  refine ⟨rfl, hk1, hkN, ?_, ?_⟩
  · rw [radial_maskAt]
    constructor
    · rw [abs_lt]
      exact ⟨hcur_lo, hkP⟩
    · rw [hmk, show (m + 1 - 1 : ℕ) = m from rfl]
      rw [abs_of_pos (by linarith)]
      exact hprev
  · intro j hj1 hjk
    rw [radial_maskAt]
    rintro ⟨habs, -⟩
    have hj : ¬ (d - j * s < 1) := hkmin j hjk
    push_neg at hj
    rw [abs_lt] at habs
    linarith [habs.2]

/-- Witness for the amended C4 at a concrete input: medium preset, camera
distance `10.03`, all hypotheses discharged concretely. -/
theorem c4_radial_capture_witness :
    isCaptured (integrateRay (stepSize .medium) false (integrationSteps .medium)
      ⟨⟨10.03, 0, 0⟩, ⟨-1, 0, 0⟩⟩) := by
  apply c4_radial_capture
  · norm_num
  · norm_num [integrationSteps, stepSize]
  · intro i hi h
    simp only [stepSize] at h
    have h5 : ((5 * i : ℕ) : ℝ) = 903 := by push_cast; linarith
    have h5' : (5 * i : ℕ) = 903 := by exact_mod_cast h5
    omega

/-- C4 counterexample: the claim quantifies over every camera distance
`≥ 2.0`, but with the medium preset (600 steps of size 0.05, total path
length 30) a center-aimed ray launched from distance 40 runs all its steps
without ever reaching the horizon, so it is not captured. -/
theorem c4_counterexample :
    (2 : ℝ) ≤ 40 ∧
    ¬ isCaptured (integrateRay (stepSize .medium) true (integrationSteps .medium)
        ⟨⟨40, 0, 0⟩, ⟨-1, 0, 0⟩⟩) := by
  refine ⟨by norm_num, ?_⟩
  rw [integrateRay, initialH2_radial, isCaptured_iff]
  rintro ⟨k, c, hkc⟩
  rw [integrate_captured_iff] at hkc
  obtain ⟨-, hk1, hkN, hmask, -⟩ := hkc
  rw [radial_maskAt] at hmask
  obtain ⟨habs, -⟩ := hmask
  rw [abs_lt] at habs
  simp only [integrationSteps] at hkN
  have hkR : (k : ℝ) ≤ 600 := by exact_mod_cast hkN
  simp only [stepSize] at habs
  nlinarith [habs.2]

/-- C3 (amended): the disk-plane crossing test is triggered exactly when
`old_position.y` and `position.y` have strictly opposite signs
(`oldpoint.y * point.y < 0.0`; a product equal to zero does not trigger it,
contrary to the original claim's "or either is exactly zero"), and — when
additionally `velocity.y ≠ 0` — the event carrying the radius, the azimuth
`atan2(intersection.x, intersection.z)` and the disk-fluid velocity
`(-x, 0, z) / (sqrt(2*(r-1)) * r^2)` at the crossing point
`intersection = old_position + lambda * velocity`,
`lambda = -old_position.y / velocity.y`, is recorded if and only if the
radius lies in `[2.0, 6.0]`; with `velocity.y = 0` no event is recorded. -/
theorem c3_disk_crossing_rule (oldp p vel : Vec3) (ev : DiskEvent) :
    diskCrossing oldp p vel = some ev ↔
      (oldp.y * p.y < 0 ∧ vel.y ≠ 0 ∧
        2 ≤ (oldp + (-oldp.y / vel.y) • vel).length ∧
        (oldp + (-oldp.y / vel.y) • vel).length ≤ 6 ∧
        ev = ⟨(oldp + (-oldp.y / vel.y) • vel).length,
              atan2 (oldp + (-oldp.y / vel.y) • vel).x
                (oldp + (-oldp.y / vel.y) • vel).z,
              (1 / (Real.sqrt (2 * ((oldp + (-oldp.y / vel.y) • vel).length - 1)) *
                    ((oldp + (-oldp.y / vel.y) • vel).length *
                     (oldp + (-oldp.y / vel.y) • vel).length))) •
                ⟨-(oldp + (-oldp.y / vel.y) • vel).x, 0,
                  (oldp + (-oldp.y / vel.y) • vel).z⟩⟩) := by
  unfold diskCrossing
  dsimp only
  split_ifs with h1 h2 h3
  · constructor
    · intro h
      exact absurd h (by simp)
    · rintro ⟨-, hvy, -⟩
      exact absurd h2 hvy
  · constructor
    · intro h
      rw [Option.some.injEq] at h
      exact ⟨h1, h2, h3.1, h3.2, h.symm⟩
    · rintro ⟨-, -, -, -, rfl⟩
      rfl
  · constructor
    · intro h
      exact absurd h (by simp)
    · rintro ⟨-, -, ha, hb, -⟩
      exact absurd ⟨ha, hb⟩ h3
  · constructor
    · intro h
      exact absurd h (by simp)
    · rintro ⟨ha, -⟩
      exact absurd ha h1

/-- C3 counterexample: an actual integration step (`h2 = 0`, `Δs = 0.05`)
that lands on the disk plane with `old_position.y = 0` exactly.  The
original claim says the crossing test is triggered (either coordinate
exactly zero) and — the claimed crossing point being `old_position` itself,
of radius 3 ∈ [2, 6] — an event is recorded; the code's strict
`oldpoint.y * point.y < 0.0` test does not fire and no event is recorded. -/
theorem c3_counterexample :
    integrationStep 0 0.05 ⟨⟨3, 0, 0⟩, ⟨0, -2, 0⟩⟩ =
      ⟨⟨3, -0.1, 0⟩, ⟨0, -2, 0⟩⟩ ∧
    (Vec3.mk 3 0 0).y = 0 ∧
    (Vec3.mk 3 0 0) + (-(Vec3.mk 3 0 0).y / (Vec3.mk 0 (-2) 0).y) • Vec3.mk 0 (-2) 0 =
      Vec3.mk 3 0 0 ∧
    2 ≤ (Vec3.mk 3 0 0).length ∧ (Vec3.mk 3 0 0).length ≤ 6 ∧
    diskCrossing ⟨3, 0, 0⟩ ⟨3, -0.1, 0⟩ ⟨0, -2, 0⟩ = none := by
  refine ⟨?_, rfl, ?_, ?_, ?_, ?_⟩
  · simp only [integrationStep, accelOf_zero, Vec3.smul_zero_vec,
      Vec3.add_zero', Vec3.zero_def, Vec3.add_def, Vec3.smul_def,
      RayState.mk.injEq, Vec3.mk.injEq]
    norm_num
  · rw [Vec3.smul_def, Vec3.add_def, Vec3.mk.injEq]
    norm_num
  · rw [length_xonly]
    norm_num
  · rw [length_xonly]
    norm_num
  · rw [diskCrossing]
    norm_num

/-- C7 (amended): when the disk-plane branch is entered with
`velocity.y = 0`, no disk-crossing event is recorded and hence nothing is
added to the accumulated color for that step — but not because the test is
skipped: the division `-oldpoint.y / velocity.y` of line 150 is performed
with a zero denominator and the resulting non-finite radius merely fails
the `[2.0, 6.0]` range check. -/
theorem c7_zero_vy_no_event (oldp p vel : Vec3) (h : vel.y = 0) :
    diskCrossing oldp p vel = none := by
  unfold diskCrossing
  by_cases h1 : oldp.y * p.y < 0
  · rw [if_pos h1, if_pos h]
  · rw [if_neg h1]

/-- Witness for the amended C7 at a concrete input. -/
theorem c7_zero_vy_no_event_witness :
    diskCrossing ⟨0, 1, 0⟩ ⟨0, -1, 0⟩ ⟨1, 0, 0⟩ = none :=
  c7_zero_vy_no_event ⟨0, 1, 0⟩ ⟨0, -1, 0⟩ ⟨1, 0, 0⟩ rfl

theorem four_rpow_two_point_five : (4 : ℝ) ^ (2.5 : ℝ) = 32 := by
  rw [show (4 : ℝ) = 2 ^ ((2 : ℕ) : ℝ) by
        rw [Real.rpow_natCast]; norm_num,
      ← Real.rpow_mul (by norm_num : (0 : ℝ) ≤ 2)]
  rw [show ((2 : ℕ) : ℝ) * 2.5 = ((5 : ℕ) : ℝ) by push_cast; norm_num,
      Real.rpow_natCast]
  norm_num

/-- One integration step written out on explicit components. -/
theorem integrationStep_eval (h2 s px py pz vx vy vz : ℝ) :
    integrationStep h2 s ⟨⟨px, py, pz⟩, ⟨vx, vy, vz⟩⟩ =
      ⟨⟨px + s * vx, py + s * vy, pz + s * vz⟩,
       ⟨vx + s * (-1.5 * h2 / ((px + s * vx) * (px + s * vx) +
            (py + s * vy) * (py + s * vy) +
            (pz + s * vz) * (pz + s * vz)) ^ (2.5 : ℝ) * (px + s * vx)),
        vy + s * (-1.5 * h2 / ((px + s * vx) * (px + s * vx) +
            (py + s * vy) * (py + s * vy) +
            (pz + s * vz) * (pz + s * vz)) ^ (2.5 : ℝ) * (py + s * vy)),
        vz + s * (-1.5 * h2 / ((px + s * vx) * (px + s * vx) +
            (py + s * vy) * (py + s * vy) +
            (pz + s * vz) * (pz + s * vz)) ^ (2.5 : ℝ) * (pz + s * vz))⟩⟩ := by
  simp only [integrationStep, accelOf, Vec3.add_def, Vec3.smul_def, Vec3.dot]

/-- C7 counterexample: an integration step (`h2 = 51200/3`, `Δs = 0.05`,
realizable as the `h2` of the initial state
`(point, velocity) = ((1,0,0), (0, sqrt(51200/3), 0))`) that enters the
disk-plane branch — the `y` coordinates strictly change sign — while the
updated `velocity.y` is exactly `0`: the division at line 150 is executed
with a zero denominator, so the claim that the disk-crossing test is
skipped with no division by zero occurring is false. -/
theorem c7_counterexample :
    ((⟨⟨Real.sqrt 3.99, 0.1, 0⟩, ⟨0, -4, 0⟩⟩ : RayState).point.y *
        (integrationStep (51200 / 3) 0.05
          ⟨⟨Real.sqrt 3.99, 0.1, 0⟩, ⟨0, -4, 0⟩⟩).point.y < 0) ∧
    (integrationStep (51200 / 3) 0.05
        ⟨⟨Real.sqrt 3.99, 0.1, 0⟩, ⟨0, -4, 0⟩⟩).velocity.y = 0 ∧
    initialH2 ⟨⟨1, 0, 0⟩, ⟨0, Real.sqrt (51200 / 3), 0⟩⟩ = 51200 / 3 := by
  have hsq : Real.sqrt 3.99 * Real.sqrt 3.99 = 3.99 :=
    Real.mul_self_sqrt (by norm_num)
  refine ⟨?_, ?_, ?_⟩
  · rw [integrationStep_eval]
    dsimp only
    norm_num
  · rw [integrationStep_eval]
    dsimp only
    rw [show Real.sqrt 3.99 + 0.05 * (0 : ℝ) = Real.sqrt 3.99 by ring]
    rw [hsq]
    rw [show (3.99 : ℝ) + (0.1 + 0.05 * -4) * (0.1 + 0.05 * -4) +
          ((0 : ℝ) + 0.05 * 0) * (0 + 0.05 * 0) = 4 by norm_num]
    rw [four_rpow_two_point_five]
    norm_num
  · rw [initialH2, Vec3.cross]
    dsimp only
    rw [Vec3.dot]
    dsimp only
    rw [show ((0 : ℝ) * 0 - 0 * Real.sqrt (51200 / 3)) *
          ((0 : ℝ) * 0 - 0 * Real.sqrt (51200 / 3)) +
          ((0 : ℝ) * 0 - 1 * 0) * ((0 : ℝ) * 0 - 1 * 0) +
          ((1 : ℝ) * Real.sqrt (51200 / 3) - 0 * 0) *
          ((1 : ℝ) * Real.sqrt (51200 / 3) - 0 * 0) =
          Real.sqrt (51200 / 3) * Real.sqrt (51200 / 3) by ring]
    exact Real.mul_self_sqrt (by norm_num)

/-- C10: for every real input temperature, every component of
`tempToColor` lies in `[0, 1]`. -/
theorem c10_tempToColor_range (tempKelvin : ℝ) :
    0 ≤ (tempToColor tempKelvin).x ∧ (tempToColor tempKelvin).x ≤ 1 ∧
    0 ≤ (tempToColor tempKelvin).y ∧ (tempToColor tempKelvin).y ≤ 1 ∧
    0 ≤ (tempToColor tempKelvin).z ∧ (tempToColor tempKelvin).z ≤ 1 := by
  have key : ∀ a : ℝ, 0 ≤ a → a ≤ 255 → 0 ≤ a / 255 ∧ a / 255 ≤ 1 :=
    fun a h0 h1 => ⟨by positivity, by linarith⟩
  have hclamp : ∀ a : ℝ, 0 ≤ min (max a 0) 255 ∧ min (max a 0) 255 ≤ 255 :=
    fun a => ⟨le_min (le_max_right a 0) (by norm_num), min_le_right _ _⟩
  have hg : ∀ a : ℝ,
      0 ≤ min (288.1221695283 * max a 0 ^ (-0.0755148492 : ℝ)) 255 ∧
      min (288.1221695283 * max a 0 ^ (-0.0755148492 : ℝ)) 255 ≤ 255 :=
    fun a =>
      ⟨le_min
          (mul_nonneg (by norm_num) (Real.rpow_nonneg (le_max_right _ _) _))
          (by norm_num),
        min_le_right _ _⟩
  unfold tempToColor
  dsimp only
  refine ⟨?_, ?_, ?_, ?_, ?_, ?_⟩
  · split_ifs with h
    · norm_num
    · exact (key _ (hclamp _).1 (hclamp _).2).1
  · split_ifs with h
    · norm_num
    · exact (key _ (hclamp _).1 (hclamp _).2).2
  · split_ifs with h
    · exact (key _ (hclamp _).1 (hclamp _).2).1
    · exact (key _ (hg _).1 (hg _).2).1
  · split_ifs with h
    · exact (key _ (hclamp _).1 (hclamp _).2).2
    · exact (key _ (hg _).1 (hg _).2).2
  · split_ifs with h1 h2
    · norm_num
    · norm_num
    · exact (key _ (hclamp _).1 (hclamp _).2).1
  · split_ifs with h1 h2
    · norm_num
    · norm_num
    · exact (key _ (hclamp _).1 (hclamp _).2).2

/-- C5 counterexample: the `BlackholeObserver` constructor (line 481) stores
the initial distance without clamping, so an observer constructed with
distance `1.5` has radius `1.5 < 2.0`, violating the claimed invariant
"r ≥ 2.0 after construction with any initial distance". -/
theorem c5_counterexample : ¬ (2 ≤ (Observer.make 1.5).r) := by
  simp only [Observer.make]
  norm_num

/-- C5 (amended): the radius invariant `r ≥ 2.0` holds after every distance
assignment — the `distance` setter clamps to `max(value, 2.0)`, and
`setConfig` with a `cameraDistance` goes through that setter — and is
preserved by `update` and every other mutator; the constructor, however,
stores its argument unclamped, so the invariant holds after construction
only when the initial distance is itself `≥ 2.0`. -/
theorem c5_radius_invariant (o : Observer) (v delta pitch yaw d : ℝ) (b : Bool)
    (u : ConfigUpdate) (s : RendererState)
    (hd : 2 ≤ d) (hs : 2 ≤ s.observer.r) :
    2 ≤ (Observer.setDistance v o).r ∧
    (Observer.update delta o).r = o.r ∧
    (Observer.setOrbitSpeed v o).r = o.r ∧
    (Observer.setMoving b o).r = o.r ∧
    (Observer.setManualControl b o).r = o.r ∧
    (Observer.setManualAngles pitch yaw o).r = o.r ∧
    2 ≤ (Observer.make d).r ∧
    2 ≤ (setConfig u s).observer.r := by
  refine ⟨?_, update_r delta o, rfl, rfl, ?_, ?_, hd, ?_⟩
  · rw [Observer.setDistance, updatePosition_r]
    exact le_max_right v 2
  · cases b <;> rfl
  · simp only [Observer.setManualAngles]
    split_ifs <;> simp [updatePosition_r]
  · rw [setConfig_observer_r]
    cases h : u.cameraDistance with
    | none => exact hs
    | some w => exact le_trans (by norm_num) (le_max_right w 2)

/-- Witness for the amended C5 at concrete inputs. -/
theorem c5_radius_invariant_witness :
    2 ≤ (Observer.setDistance 1 (Observer.make 3)).r ∧
    (Observer.update 0.1 (Observer.make 3)).r = (Observer.make 3).r ∧
    (Observer.setOrbitSpeed 1 (Observer.make 3)).r = (Observer.make 3).r ∧
    (Observer.setMoving true (Observer.make 3)).r = (Observer.make 3).r ∧
    (Observer.setManualControl true (Observer.make 3)).r = (Observer.make 3).r ∧
    (Observer.setManualAngles 0 0 (Observer.make 3)).r = (Observer.make 3).r ∧
    2 ≤ (Observer.make 5).r ∧
    2 ≤ (setConfig emptyUpdate defaultRendererState).observer.r :=
  c5_radius_invariant (Observer.make 3) 1 0.1 0 0 5 true emptyUpdate
    defaultRendererState (by norm_num)
    (by
      have : defaultRendererState.observer.r = 10 := rfl
      rw [this]
      norm_num)

/-- C6 (amended): the orbit-mode ramp is monotone only from in-range
states — non-decreasing while `moving` provided the angular velocity does
not already exceed `maxAngularVelocity`, non-increasing while not moving
provided it is nonnegative — and one update may overshoot the claimed
`[0, maxAngularVelocity]` interval by at most the ramp increment
`delta / r` on either side; the `orbitSpeed` setter does clamp exactly
into `[0, maxAngularVelocity]`. -/
theorem c6_omega_ramp_bounds (o : Observer) (delta v : ℝ)
    (hman : o.manualControl = false) (hr : 1 < o.r) (hdelta : 0 ≤ delta)
    (hmax : 0 ≤ o.maxAngularVelocity) :
    (o.moving = true → o.angularVelocity ≤ o.maxAngularVelocity →
       o.angularVelocity ≤ (Observer.update delta o).angularVelocity) ∧
    (o.moving = false → 0 ≤ o.angularVelocity →
       (Observer.update delta o).angularVelocity ≤ o.angularVelocity) ∧
    (0 ≤ o.angularVelocity → o.angularVelocity ≤ o.maxAngularVelocity →
       -(delta / o.r) ≤ (Observer.update delta o).angularVelocity ∧
       (Observer.update delta o).angularVelocity ≤
         o.maxAngularVelocity + delta / o.r) ∧
    0 ≤ (Observer.setOrbitSpeed v o).angularVelocity ∧
    (Observer.setOrbitSpeed v o).angularVelocity ≤ o.maxAngularVelocity := by
  have hdr : 0 ≤ delta / o.r := div_nonneg hdelta (by linarith)
  rw [update_angularVelocity delta o hman]
  refine ⟨?_, ?_, ?_, ?_, ?_⟩
  · intro hmov homega
    rw [if_pos hmov]
    split_ifs with h
    · linarith
    · exact homega
  · intro hmov homega
    rw [hmov]
    simp only [Bool.false_eq_true, if_false]
    split_ifs with h
    · linarith
    · exact homega
  · intro h0 hm
    split_ifs <;> exact ⟨by linarith, by linarith⟩
  · exact le_min (abs_nonneg v) hmax
  · exact min_le_right _ _

/-- Witness for the amended C6: the theorem applied to a freshly made
observer at distance 10. -/
theorem c6_omega_ramp_bounds_witness :
    0 ≤ (Observer.setOrbitSpeed 0.05 (Observer.make 10)).angularVelocity ∧
    (Observer.setOrbitSpeed 0.05 (Observer.make 10)).angularVelocity ≤
      (Observer.make 10).maxAngularVelocity :=
  ⟨(c6_omega_ramp_bounds (Observer.make 10) 0.1 0.05 rfl
      (by simp only [Observer.make]; norm_num) (by norm_num)
      (by simp only [Observer.make, maxAngVel]; positivity)).2.2.2.1,
   (c6_omega_ramp_bounds (Observer.make 10) 0.1 0.05 rfl
      (by simp only [Observer.make]; norm_num) (by norm_num)
      (by simp only [Observer.make, maxAngVel]; positivity)).2.2.2.2⟩

/-- C6 counterexample: an observer at distance 10 with angular velocity
`0.02` — inside the claimed `[0, maxAngularVelocity(10)]` interval — and
the moving flag set receives one `update` with `delta = 0.1` (the frame
driver's clamp value); the unguarded ramp `ω += delta / r` raises it to
`0.03`, strictly above `maxAngularVelocity(10) = 1/(sqrt(18)*10) ≈ 0.0236`,
so the claimed invariant "after every update the angular velocity lies
within `[0, maxAngularVelocity(r)]`" is false. -/
theorem c6_counterexample :
    0 ≤ (Observer.setMoving true
        (Observer.setOrbitSpeed 0.02 (Observer.make 10))).angularVelocity ∧
    (Observer.setMoving true
        (Observer.setOrbitSpeed 0.02 (Observer.make 10))).angularVelocity ≤
      (Observer.setMoving true
        (Observer.setOrbitSpeed 0.02 (Observer.make 10))).maxAngularVelocity ∧
    (Observer.update 0.1 (Observer.setMoving true
        (Observer.setOrbitSpeed 0.02 (Observer.make 10)))).r = 10 ∧
    maxAngVel ((Observer.update 0.1 (Observer.setMoving true
        (Observer.setOrbitSpeed 0.02 (Observer.make 10)))).r) <
      (Observer.update 0.1 (Observer.setMoving true
        (Observer.setOrbitSpeed 0.02 (Observer.make 10)))).angularVelocity := by
  have h18pos : (0 : ℝ) < Real.sqrt 18 := Real.sqrt_pos.mpr (by norm_num)
  have h18lt : Real.sqrt 18 < 5 := by
    have h25 : Real.sqrt 25 = 5 := by
      rw [show (25 : ℝ) = 5 ^ 2 by norm_num]
      exact Real.sqrt_sq (by norm_num)
    rw [← h25]
    exact Real.sqrt_lt_sqrt (by norm_num) (by norm_num)
  have h18gt : (10 / 3 : ℝ) < Real.sqrt 18 := by
    have h109 : Real.sqrt (100 / 9) = 10 / 3 := by
      rw [show (100 / 9 : ℝ) = (10 / 3) ^ 2 by norm_num]
      exact Real.sqrt_sq (by norm_num)
    rw [← h109]
    exact Real.sqrt_lt_sqrt (by norm_num) (by norm_num)
  have hmv : maxAngVel 10 = 1 / Real.sqrt 18 / 10 := by
    rw [maxAngVel]
    norm_num
  have hlow : (0.02 : ℝ) < maxAngVel 10 := by
    rw [hmv]
    have h1 : (0.2 : ℝ) < 1 / Real.sqrt 18 := by
      rw [lt_div_iff₀ h18pos]
      nlinarith
    linarith
  have hhigh : maxAngVel 10 < 0.03 := by
    rw [hmv]
    have h1 : 1 / Real.sqrt 18 < 0.3 := by
      rw [div_lt_iff₀ h18pos]
      nlinarith
    linarith
  have hsmax : (Observer.setMoving true
      (Observer.setOrbitSpeed 0.02 (Observer.make 10))).maxAngularVelocity =
        maxAngVel 10 := rfl
  have homega : (Observer.setMoving true
      (Observer.setOrbitSpeed 0.02 (Observer.make 10))).angularVelocity = 0.02 := by
    show min |(0.02 : ℝ)| (maxAngVel 10) = 0.02
    rw [abs_of_pos (by norm_num)]
    exact min_eq_left (le_of_lt hlow)
  have hupd : (Observer.update 0.1 (Observer.setMoving true
      (Observer.setOrbitSpeed 0.02 (Observer.make 10)))).angularVelocity =
        0.02 + 0.1 / 10 := by
    rw [update_angularVelocity 0.1 _ rfl]
    rw [if_pos (show (Observer.setMoving true
      (Observer.setOrbitSpeed 0.02 (Observer.make 10))).moving = true from rfl)]
    rw [homega, hsmax]
    rw [if_pos hlow]
    rw [show (Observer.setMoving true
      (Observer.setOrbitSpeed 0.02 (Observer.make 10))).r = (10 : ℝ) from rfl]
  have hur : (Observer.update 0.1 (Observer.setMoving true
      (Observer.setOrbitSpeed 0.02 (Observer.make 10)))).r = 10 := by
    rw [update_r]
    rfl
  refine ⟨?_, ?_, hur, ?_⟩
  · rw [homega]
    norm_num
  · rw [homega, hsmax]
    exact le_of_lt hlow
  · rw [hupd, hur]
    linarith

/-- C9 (amended): for every partial update record, each of the 14 fields
that `setConfig` checks (cameraDistance, orbitSpeed, enableOrbit,
enableControls, mouseSensitivity, touchSensitivity, enableZoom,
minDistance, maxDistance, fieldOfView, showAccretionDisk,
enableLorentzTransform, enableDopplerShift, enableBeaming) is, when
present, applied immediately to the live configuration and to the
corresponding controls/uniform/observer state, and left untouched when
absent; fields outside that set (quality, useDiskTexture, bloomStrength,
bloomRadius, bloomThreshold, the three texture URLs and resolutionScale)
are ignored even when present. -/
theorem c9_update_record_rule (u : ConfigUpdate) (s : RendererState) :
    (setConfig u s).config =
      { s.config with
        cameraDistance := u.cameraDistance.getD s.config.cameraDistance
        orbitSpeed := u.orbitSpeed.getD s.config.orbitSpeed
        enableOrbit := u.enableOrbit.getD s.config.enableOrbit
        enableControls := u.enableControls.getD s.config.enableControls
        mouseSensitivity := u.mouseSensitivity.getD s.config.mouseSensitivity
        touchSensitivity := u.touchSensitivity.getD s.config.touchSensitivity
        enableZoom := u.enableZoom.getD s.config.enableZoom
        minDistance := u.minDistance.getD s.config.minDistance
        maxDistance := u.maxDistance.getD s.config.maxDistance
        fieldOfView := u.fieldOfView.getD s.config.fieldOfView
        showAccretionDisk := u.showAccretionDisk.getD s.config.showAccretionDisk
        enableLorentzTransform :=
          u.enableLorentzTransform.getD s.config.enableLorentzTransform
        enableDopplerShift :=
          u.enableDopplerShift.getD s.config.enableDopplerShift
        enableBeaming := u.enableBeaming.getD s.config.enableBeaming } ∧
    (setConfig u s).uniforms =
      { uFieldOfView := u.fieldOfView.getD s.uniforms.uFieldOfView
        uShowAccretionDisk :=
          u.showAccretionDisk.getD s.uniforms.uShowAccretionDisk
        uEnableLorentzTransform :=
          u.enableLorentzTransform.getD s.uniforms.uEnableLorentzTransform
        uEnableDopplerShift :=
          u.enableDopplerShift.getD s.uniforms.uEnableDopplerShift
        uEnableRelBeaming :=
          u.enableBeaming.getD s.uniforms.uEnableRelBeaming } ∧
    (setConfig u s).controls =
      { enabled := u.enableControls.getD s.controls.enabled
        mouseSensitivity := u.mouseSensitivity.getD s.controls.mouseSensitivity
        touchSensitivity := u.touchSensitivity.getD s.controls.touchSensitivity
        enableZoom := u.enableZoom.getD s.controls.enableZoom
        minDistance :=
          if u.minDistance.isSome || u.maxDistance.isSome then
            max (u.minDistance.getD s.config.minDistance) 2.01
          else s.controls.minDistance
        maxDistance :=
          if u.minDistance.isSome || u.maxDistance.isSome then
            u.maxDistance.getD s.config.maxDistance
          else s.controls.maxDistance } ∧
    (setConfig u s).observer.r =
      u.cameraDistance.elim s.observer.r (fun v => max v 2) ∧
    (setConfig u s).observer.manualControl =
      u.enableControls.getD s.observer.manualControl :=
  ⟨setConfig_config u s, setConfig_uniforms u s, setConfig_controls u s,
   setConfig_observer_r u s, setConfig_observer_manualControl u s⟩

/-- C9 counterexample: a partial update record carrying only
`bloomStrength := 0.9` — a `BlackholeConfig` field — leaves the live
configuration's `bloomStrength` at its default `0.5`: the runtime mutation
API silently ignores this present field, so "every field present in the
record is applied immediately" is false. -/
theorem c9_counterexample :
    ({ emptyUpdate with bloomStrength := some 0.9 } : ConfigUpdate).bloomStrength
        = some 0.9 ∧
    (setConfig { emptyUpdate with bloomStrength := some 0.9 }
        defaultRendererState).config.bloomStrength = 0.5 ∧
    (0.5 : ℝ) ≠ 0.9 := by
  refine ⟨rfl, ?_, by norm_num⟩
  rw [setConfig_config]
  rfl

/-- C8: from any orbit-mode observer state whose position lies on the
sphere of its radius (every state produced by `updatePosition` does),
switching into manual mode — which snapshots the current position as the
initial pitch/yaw — running a frame update in manual mode, and switching
back leaves the observer position exactly equal to its pre-switch value
(difference `0`, below every positive epsilon). -/
theorem c8_mode_switch_roundtrip (o : Observer) (delta : ℝ)
    (hman : o.manualControl = false) (hr : 0 < o.r)
    (hnorm : Vec3.dot o.position o.position = o.r * o.r) :
    (Observer.update delta (Observer.setManualControl true o)).position =
      o.position ∧
    (Observer.setManualControl false
        (Observer.update delta (Observer.setManualControl true o))).position =
      o.position := by
  have hlen : o.position.length = o.r := by
    rw [Vec3.length, hnorm]
    exact Real.sqrt_mul_self hr.le
  have hcpx : (Vec3.normalize o.position).x = o.position.x / o.r := by
    simp only [Vec3.normalize, Vec3.smul_def]
    rw [hlen]
    ring
  have hcpy : (Vec3.normalize o.position).y = o.position.y / o.r := by
    simp only [Vec3.normalize, Vec3.smul_def]
    rw [hlen]
    ring
  have hcpz : (Vec3.normalize o.position).z = o.position.z / o.r := by
    simp only [Vec3.normalize, Vec3.smul_def]
    rw [hlen]
    ring
  have hn' : o.position.x * o.position.x + o.position.y * o.position.y +
      o.position.z * o.position.z = o.r * o.r := by
    rw [← hnorm]
    rfl
  obtain ⟨h1, h2, h3⟩ :=
    spherical_roundtrip o.r o.position.x o.position.y o.position.z hr hn'
  have hpos : (Observer.update delta
      (Observer.setManualControl true o)).position = o.position := by
    show (⟨o.r * Real.cos (Real.arcsin (Vec3.normalize o.position).y) *
            Real.sin (atan2 (Vec3.normalize o.position).x
              (Vec3.normalize o.position).z),
          o.r * Real.sin (Real.arcsin (Vec3.normalize o.position).y),
          o.r * Real.cos (Real.arcsin (Vec3.normalize o.position).y) *
            Real.cos (atan2 (Vec3.normalize o.position).x
              (Vec3.normalize o.position).z)⟩ : Vec3) = o.position
    rw [hcpx, hcpy, hcpz, h1, h2, h3]
  exact ⟨hpos, hpos⟩

/-- Witness for C8: the round trip applied to a freshly made observer at
distance 10 (position `(0, 0, 10)`). -/
theorem c8_mode_switch_roundtrip_witness :
    (Observer.update 0.1 (Observer.setManualControl true
        (Observer.make 10))).position = (Observer.make 10).position ∧
    (Observer.setManualControl false
        (Observer.update 0.1 (Observer.setManualControl true
          (Observer.make 10)))).position = (Observer.make 10).position :=
  c8_mode_switch_roundtrip (Observer.make 10) 0.1 rfl
    (by simp only [Observer.make]; norm_num)
    (by simp only [Observer.make, Vec3.dot]; norm_num)

end Blackhole
